import Mathlib

/-!
Verification of the kubetest2-ec2 deployer (kubernetes-sigs/provider-aws-test-infra).

Shallow embedding of the deployer's pure control and string-processing logic:
fleet teardown (`Down`), the per-instance readiness poll loop
(`isAWSInstanceRunning`), the control-plane cloud-init wait
(`waitForCloudInitComplete`), user-data composition (`getUserData`), image
preparation (`prepareAWSImages`), instance launch (`LaunchNewInstance`,
`WaitForInstanceToRun`), IAM provisioning (`EnsureRole`,
`EnsureInstanceProfile`) and the kubeconfig rewrite (`downloadKubeConfig`).
External AWS / SSH calls are modelled as environments supplying each call's
result; everything else follows the Go source statement by statement.
-/

namespace EC2

/-! ## Generic string machinery (Go `strings`/`regexp` operations on `List Char`) -/

/-- `subAt pat s i` holds when `pat` occurs in `s` starting at index `i`
(Go `strings.Index`-style occurrence test at a fixed position). -/
def subAt (pat s : List Char) (i : Nat) : Bool :=
  pat.isPrefixOf (s.drop i)

/-- Go `strings.Contains`: some occurrence of `pat` inside `s`. -/
def containsSub (pat s : List Char) : Bool :=
  (List.range (s.length + 1)).any (fun i => subAt pat s i)

/-- Go `strings.ReplaceAll` for a non-empty pattern: scan left to right,
replace each non-overlapping occurrence by `rep`.  The fuel argument (the
text's length suffices, as every step consumes at least one character) keeps
the recursion structural so that concrete instances evaluate by `decide`. -/
def replaceAllFuel (pat rep : List Char) : Nat → List Char → List Char
  | _, [] => []
  | 0, s => s
  | fuel + 1, c :: rest =>
    if pat.isPrefixOf (c :: rest) then
      rep ++ replaceAllFuel pat rep fuel ((c :: rest).drop pat.length)
    else
      c :: replaceAllFuel pat rep fuel rest

/-- Go `strings.ReplaceAll s pat rep` (the deployer never uses an empty
pattern; for completeness an empty pattern leaves `s` unchanged). -/
def replaceAll (s pat rep : List Char) : List Char :=
  match pat with
  | [] => s
  | _ :: _ => replaceAllFuel pat rep s.length s

/-- Convenience: characters of a string literal. -/
def chars (s : String) : List Char := s.data

/-! ## Fleet teardown: `deployer.Down` (deployer.go)

`Down` dumps logs best-effort, then iterates over the tracked instances,
calling `TerminateInstances` for each; on the first failing call it returns
`fmt.Errorf("failed to delete instance %s : %w", ...)` immediately.
The environment gives each call's outcome: `none` is success, `some e` the
API error text. -/

def TerminateEnv := String → Option String

/-- `deployer.Down` over the tracked instance ids, returning the ids for which
a `TerminateInstances` call was attempted (in order) and the returned error,
if any. -/
def Down (env : TerminateEnv) : List String → List String × Option String
  | [] => ([], none)
  | i :: rest =>
    match env i with
    | some e => ([i], some ("failed to delete instance " ++ i ++ " : " ++ e))
    | none =>
      let r := Down env rest
      (i :: r.1, r.2)

/-- Termination environment where exactly instance `i-2` fails. -/
def c1Env : TerminateEnv := fun i => if i = "i-2" then some "api error" else none

/-- Termination environment where exactly instance `b` fails. -/
def c1wEnv : TerminateEnv := fun i => if i = "b" then some "boom" else none

/-- C1 is false on the code: with tracked instances `i-1, i-2, i-3` and the
termination API failing for `i-2`, `Down` returns after `i-2` and never
attempts to terminate `i-3` — one instance's failure does block the rest. -/
theorem C1_counterexample :
    (Down c1Env ["i-1", "i-2", "i-3"]).2 =
      some "failed to delete instance i-2 : api error" ∧
    "i-3" ∉ (Down c1Env ["i-1", "i-2", "i-3"]).1 := by
  decide

/-- C1 (amended): `Down` attempts terminations in order and stops at the first
failing `TerminateInstances` call: if every instance of `pre` terminates
successfully and `x`'s termination fails with API error `e`, then `Down`
attempts exactly `pre ++ [x]` — the instances after `x` are never attempted —
and returns a (single, non-aggregate) error naming `x`. -/
theorem C1_down_first_failure (env : TerminateEnv) (pre suf : List String)
    (x e : String) (hpre : ∀ y ∈ pre, env y = none) (hx : env x = some e) :
    Down env (pre ++ x :: suf) =
      (pre ++ [x], some ("failed to delete instance " ++ x ++ " : " ++ e)) := by
  induction pre with
  | nil => simp [Down, hx]
  | cons a as ih =>
    have ha : env a = none := hpre a (by simp)
    have hrest := ih (fun y hy => hpre y (by simp [hy]))
    simp only [List.cons_append, Down, ha, List.append_eq, hrest]

/-- Witness for `C1_down_first_failure` at a concrete input. -/
theorem C1_down_first_failure_witness :
    Down c1wEnv ["a", "b", "c"] =
      (["a", "b"], some "failed to delete instance b : boom") :=
  C1_down_first_failure c1wEnv ["a"] ["c"] "b" "boom" (by decide) (by decide)

/-! ## Per-instance readiness poll loop: `AWSRunner.isAWSInstanceRunning` (runner.go)

The loop first blocks on the 5-minute `NewInstanceRunningWaiter`, then runs up
to 30 iterations (15 s sleeps elided).  Each iteration re-describes the
instance, checks its state, network interfaces, optionally injects an SSH key
via instance-connect (only until the first success: `createdSSHKey` persists
across iterations), then runs the remote-exec gates: container runtime,
cloud-init, and — for the control-plane instance (`controlPlaneIP ==
privateIP`) — API server and node registration.  Any failed check `continue`s
to the next iteration.  External calls are supplied per iteration by an
`IterEnv`. -/

/-- Result of one `remote.SSH` call: combined output and success flag. -/
structure SSHResult where
  out : List Char
  ok : Bool
deriving DecidableEq, Repr

/-- Outcomes of the external calls one poll iteration can make. -/
structure IterEnv where
  /-- `DescribeInstances` call succeeded. -/
  describeOk : Bool
  /-- described `instance.State.Name` is `running`. -/
  stateRunning : Bool
  /-- number of entries of `instance.NetworkInterfaces`. -/
  nicCount : Nat
  /-- `assignNewSSHKey` outcome (consulted only when attempted). -/
  sshKeyOk : Bool
  /-- `systemctl list-units --type=service --state=running | grep -e containerd -e crio`. -/
  runtime : SSHResult
  /-- `systemctl status cloud-init.service`. -/
  cloudInit : SSHResult
  /-- `kubectl --kubeconfig /etc/kubernetes/admin.conf version`. -/
  apiVersion : SSHResult
  /-- `kubectl --kubeconfig /etc/kubernetes/admin.conf get nodes -o name`. -/
  getNodes : SSHResult
deriving DecidableEq, Repr

/-- The poll's per-instance configuration (fields of `AWSRunner` and
`awsInstance` the loop reads). -/
structure PollConfig where
  instanceID : String
  controlPlaneIP : String
  /-- `*testInstance.instance.PrivateIpAddress`. -/
  privateIP : String
  /-- `deployer.Ec2InstanceConnect` flag. -/
  ec2InstanceConnect : Bool
  /-- the 5-minute `NewInstanceRunningWaiter` succeeded. -/
  waiterOk : Bool
deriving DecidableEq, Repr

/-- The readiness gates of the loop, in source order. -/
inductive Gate
  | running | network | sshKey | runtime | cloudInit | apiServer | nodeRegistered
deriving DecidableEq, Repr

/-- Success condition of each gate, read off the source checks. -/
def gateOk (e : IterEnv) : Gate → Bool
  | .running => e.describeOk && e.stateRunning
  | .network => !(e.nicCount == 0)
  | .sshKey => e.sshKeyOk
  | .runtime => e.runtime.ok &&
      (containsSub (chars "containerd.service") e.runtime.out ||
       containsSub (chars "crio.service") e.runtime.out)
  | .cloudInit => e.cloudInit.ok && containsSub (chars "exited") e.cloudInit.out
  | .apiServer => e.apiVersion.ok
  | .nodeRegistered => e.getNodes.ok && containsSub (chars "node/") e.getNodes.out

/-- Result of one loop iteration: whether `instanceRunning` was set, the new
`createdSSHKey` value, and the gates whose checks were executed. -/
structure IterResult where
  ok : Bool
  createdKey : Bool
  attempted : List Gate
deriving DecidableEq, Repr

/-- Gates from the container-runtime check onward (shared by the
created-key and fresh-key paths of an iteration). -/
def runIterTail (cfg : PollConfig) (created : Bool) (e : IterEnv)
    (pre : List Gate) : IterResult :=
  if ¬(e.runtime.ok &&
        (containsSub (chars "containerd.service") e.runtime.out ||
         containsSub (chars "crio.service") e.runtime.out)) then
    ⟨false, created, pre ++ [.runtime]⟩
  else if ¬(e.cloudInit.ok && containsSub (chars "exited") e.cloudInit.out) then
    ⟨false, created, pre ++ [.runtime, .cloudInit]⟩
  else if cfg.controlPlaneIP = cfg.privateIP then
    if ¬e.apiVersion.ok then
      ⟨false, created, pre ++ [.runtime, .cloudInit, .apiServer]⟩
    else if ¬(e.getNodes.ok && containsSub (chars "node/") e.getNodes.out) then
      ⟨false, created, pre ++ [.runtime, .cloudInit, .apiServer, .nodeRegistered]⟩
    else
      ⟨true, created, pre ++ [.runtime, .cloudInit, .apiServer, .nodeRegistered]⟩
  else
    ⟨true, created, pre ++ [.runtime, .cloudInit]⟩

/-- One iteration of the `for i := 0; i < 30 && !instanceRunning; i++` loop
body, with `created` the incoming `createdSSHKey` value. -/
def runIter (cfg : PollConfig) (created : Bool) (e : IterEnv) : IterResult :=
  if ¬(e.describeOk && e.stateRunning) then ⟨false, created, [.running]⟩
  else if e.nicCount = 0 then ⟨false, created, [.running, .network]⟩
  else if cfg.ec2InstanceConnect && !created then
    if ¬e.sshKeyOk then ⟨false, created, [.running, .network, .sshKey]⟩
    else runIterTail cfg true e [.running, .network, .sshKey]
  else runIterTail cfg created e [.running, .network]

/-- The bounded retry loop: `fuel` iterations remain, `i` is the iteration
index, `created` the current `createdSSHKey`.  Returns whether
`instanceRunning` became true and the per-iteration gate trace. -/
def pollAux (cfg : PollConfig) (envs : Nat → IterEnv) :
    Nat → Nat → Bool → Bool × List (List Gate)
  | 0, _, _ => (false, [])
  | n + 1, i, created =>
    let r := runIter cfg created (envs i)
    if r.ok then (true, [r.attempted])
    else
      let rest := pollAux cfg envs n (i + 1) r.createdKey
      (rest.1, r.attempted :: rest.2)

/-- Outcome of `isAWSInstanceRunning`: the error returned (if any) and the
trace of gates attempted in each executed iteration. -/
structure PollResult where
  err : Option String
  trace : List (List Gate)
deriving DecidableEq, Repr

/-- `AWSRunner.isAWSInstanceRunning`: the 5-minute running waiter, then the
30-iteration gate loop; exhausting the budget yields
`"instance %s is not running"`. -/
def isAWSInstanceRunning (cfg : PollConfig) (envs : Nat → IterEnv) : PollResult :=
  if ¬cfg.waiterOk then
    ⟨some ("instance " ++ cfg.instanceID ++ " did not start running"), []⟩
  else
    let r := pollAux cfg envs 30 0 false
    ⟨if r.1 then none else some ("instance " ++ cfg.instanceID ++ " is not running"), r.2⟩

/-! ## Control-plane cloud-init wait: `deployer.waitForCloudInitComplete` (up.go)

A separate, time-bounded loop run once after all instances are ready: polls
`cloud-init status` on the control plane (the first tracked instance);
`status: done` succeeds, `status: error` returns a fatal error immediately,
anything else (including SSH errors) sleeps and retries until the 5-minute
deadline. The deadline is modelled as a poll budget. -/

/-- Outcome of the cloud-init wait: number of status queries performed and
the returned error, if any. -/
structure CloudInitPoll where
  queries : Nat
  err : Option String
deriving DecidableEq, Repr

/-- The polling loop of `waitForCloudInitComplete`; `q k` is the result of the
`cloud-init status` query at step `k`. -/
def waitForCloudInitCompleteAux (q : Nat → SSHResult) :
    Nat → Nat → CloudInitPoll
  | 0, k => ⟨k, some "timeout waiting for cloud-init to complete"⟩
  | n + 1, k =>
    let r := q k
    if ¬r.ok then waitForCloudInitCompleteAux q n (k + 1)
    else if containsSub (chars "status: done") r.out then ⟨k + 1, none⟩
    else if containsSub (chars "status: error") r.out then
      ⟨k + 1, some "cloud-init failed with error status"⟩
    else waitForCloudInitCompleteAux q n (k + 1)

/-- `deployer.waitForCloudInitComplete`: fails when no instances are tracked,
otherwise polls the first (control-plane) instance. -/
def waitForCloudInitComplete (instances : List String) (q : Nat → SSHResult)
    (budget : Nat) : CloudInitPoll :=
  match instances with
  | [] => ⟨0, some "no instances available"⟩
  | _ :: _ => waitForCloudInitCompleteAux q budget 0

/-! ## Shared lemmas about the poll loop -/

/-- A list is a Boolean prefix of itself followed by anything. -/
theorem isPrefixOf_append_self (l r : List Char) : l.isPrefixOf (l ++ r) = true := by
  induction l with
  | nil => simp [List.isPrefixOf]
  | cons a as ih => simp [List.isPrefixOf, ih]

/-- `containsSub` finds a pattern sitting between two other pieces. -/
theorem containsSub_sandwich (pat pre suf : List Char) :
    containsSub pat (pre ++ pat ++ suf) = true := by
  unfold containsSub
  rw [List.any_eq_true]
  refine ⟨pre.length, List.mem_range.mpr ?_, ?_⟩
  · simp only [List.length_append]
    omega
  · unfold subAt
    rw [List.append_assoc, List.drop_left]
    exact isPrefixOf_append_self pat suf

/-- If the cloud-init status output lacks `"exited"`, the iteration cannot
set `instanceRunning` (every later path requires that check to pass). -/
theorem runIter_ok_false_of_cloudInit (cfg : PollConfig) (c : Bool) (e : IterEnv)
    (h : containsSub (chars "exited") e.cloudInit.out = false) :
    (runIter cfg c e).ok = false := by
  have htail : ∀ c' pre, (runIterTail cfg c' e pre).ok = false := by
    intro c' pre
    unfold runIterTail
    by_cases h1 : (e.runtime.ok &&
        (containsSub (chars "containerd.service") e.runtime.out ||
         containsSub (chars "crio.service") e.runtime.out)) = true
    · rw [if_neg (by simp [h1])]
      rw [if_pos (by simp [h])]
    · rw [if_pos (by simp_all)]
  unfold runIter
  by_cases h1 : (e.describeOk && e.stateRunning) = true
  · by_cases h2 : e.nicCount = 0
    · simp [h1, h2]
    · by_cases h3 : (cfg.ec2InstanceConnect && !c) = true
      · by_cases h4 : e.sshKeyOk = true
        · simp [h1, h2, h3, h4, htail]
        · simp [h1, h2, h3, h4]
      · simp [h1, h2, h3, htail]
  · simp [h1]

/-- If every iteration fails, the loop consumes its whole budget. -/
theorem pollAux_all_fail (cfg : PollConfig) (envs : Nat → IterEnv)
    (hfail : ∀ i c, (runIter cfg c (envs i)).ok = false) :
    ∀ n i c, (pollAux cfg envs n i c).1 = false ∧
      (pollAux cfg envs n i c).2.length = n := by
  intro n
  induction n with
  | zero => intro i c; simp [pollAux]
  | succ m ih =>
    intro i c
    have h := hfail i c
    have hrest := ih (i + 1) (runIter cfg c (envs i)).createdKey
    simp only [pollAux, h, if_neg (by simp : ¬(false = true))]
    simpa using hrest

/-! ## Claim C2: cloud-init "error status is a fatal abort" -/

/-- Non-control-plane poll configuration used to refute C2. -/
def c2Cfg : PollConfig :=
  ⟨"i-007", "10.0.0.1", "10.0.0.9", false, true⟩

/-- Every iteration: all checks up to cloud-init pass, and `cloud-init`
reports an explicit error status (no `"exited"` in the output). -/
def c2Envs : Nat → IterEnv := fun _ =>
  { describeOk := true, stateRunning := true, nicCount := 1, sshKeyOk := true
    runtime := ⟨chars "containerd.service running", true⟩
    cloudInit := ⟨chars "cloud-init.service status: error (failed)", true⟩
    apiVersion := ⟨chars "", true⟩
    getNodes := ⟨chars "", true⟩ }

/-- C2 is false on the per-instance readiness poll loop: when the cloud-init
status query reports an explicit error status in every iteration, the loop
does not abort after the first iteration — it consumes all 30 retry
iterations (re-attempting the earlier gates each time) and then returns the
generic budget-exhaustion error, not a fatal cloud-init error. -/
theorem C2_counterexample :
    (isAWSInstanceRunning c2Cfg c2Envs).trace.length = 30 ∧
    (isAWSInstanceRunning c2Cfg c2Envs).err = some "instance i-007 is not running" := by
  decide

/-- C2 (amended): in `isAWSInstanceRunning` an explicit cloud-init error
status only causes a retry like any other unfinished status — the loop
consumes its whole 30-iteration budget and fails with the generic error.  The
immediate-abort-on-error behaviour lives in the separate control-plane wait
`waitForCloudInitComplete`, whose loop returns the fatal error
`"cloud-init failed with error status"` after the very first query whose
output contains `"status: error"` (and not `"status: done"`), performing no
further retries. -/
theorem C2_cloudInit_error_behaviour :
    (∀ (cfg : PollConfig) (envs : Nat → IterEnv), cfg.waiterOk = true →
      (∀ i, containsSub (chars "exited") ((envs i).cloudInit.out) = false) →
      (isAWSInstanceRunning cfg envs).trace.length = 30 ∧
      (isAWSInstanceRunning cfg envs).err =
        some ("instance " ++ cfg.instanceID ++ " is not running")) ∧
    (∀ (q : Nat → SSHResult) (n : Nat), (q 0).ok = true →
      containsSub (chars "status: done") (q 0).out = false →
      containsSub (chars "status: error") (q 0).out = true →
      waitForCloudInitCompleteAux q (n + 1) 0 =
        ⟨1, some "cloud-init failed with error status"⟩) := by
  constructor
  · intro cfg envs hw hci
    have hfail : ∀ i c, (runIter cfg c (envs i)).ok = false :=
      fun i c => runIter_ok_false_of_cloudInit cfg c (envs i) (hci i)
    have h := pollAux_all_fail cfg envs hfail 30 0 false
    unfold isAWSInstanceRunning
    rw [if_neg (by simp [hw])]
    exact ⟨h.2, by simp [h.1]⟩
  · intro q n hok hdone herr
    unfold waitForCloudInitCompleteAux
    simp [hok, hdone, herr]

/-- Witness for `C2_cloudInit_error_behaviour` at concrete inputs. -/
theorem C2_cloudInit_error_behaviour_witness :
    ((isAWSInstanceRunning c2Cfg c2Envs).trace.length = 30 ∧
      (isAWSInstanceRunning c2Cfg c2Envs).err =
        some ("instance " ++ "i-007" ++ " is not running")) ∧
    waitForCloudInitCompleteAux
        (fun _ => ⟨chars "status: error", true⟩) 7 0 =
      ⟨1, some "cloud-init failed with error status"⟩ := by
  have h : containsSub (chars "exited")
      (chars "cloud-init.service status: error (failed)") = false := by decide
  exact ⟨C2_cloudInit_error_behaviour.1 c2Cfg c2Envs rfl (fun _ => h),
    C2_cloudInit_error_behaviour.2 (fun _ => ⟨chars "status: error", true⟩) 6
      rfl (by decide) (by decide)⟩

/-! ## Claim C4: budget-exhaustion error contents -/

/-- Non-control-plane poll configuration used to refute C4. -/
def c4Cfg : PollConfig :=
  ⟨"i-042", "10.0.0.1", "10.0.0.9", false, true⟩

/-- Every iteration fails the container-runtime gate, and the last observed
remote-command output is `"E2E-BOOM"`. -/
def c4Envs : Nat → IterEnv := fun _ =>
  { describeOk := true, stateRunning := true, nicCount := 1, sshKeyOk := true
    runtime := ⟨chars "E2E-BOOM", false⟩
    cloudInit := ⟨chars "", true⟩
    apiVersion := ⟨chars "", true⟩
    getNodes := ⟨chars "", true⟩ }

/-- C4 is false on the code: after the retry budget is exhausted the returned
error is exactly `"instance i-042 is not running"` — it names the instance id
but does *not* include the last observed remote-command output (`"E2E-BOOM"`
here); the intermediate error values holding that output are discarded. -/
theorem C4_counterexample :
    (isAWSInstanceRunning c4Cfg c4Envs).trace.length = 30 ∧
    (isAWSInstanceRunning c4Cfg c4Envs).err = some "instance i-042 is not running" ∧
    containsSub (chars "E2E-BOOM") (chars "instance i-042 is not running") = false := by
  decide

/-- C4 (amended): when the poll loop exhausts its fixed 30-iteration budget
without success, `isAWSInstanceRunning` returns the error
`"instance <id> is not running"`, which names (contains) the instance id but
carries no remote-command output. -/
theorem C4_budget_exhausted_error (cfg : PollConfig) (envs : Nat → IterEnv)
    (hw : cfg.waiterOk = true) (hfail : (pollAux cfg envs 30 0 false).1 = false) :
    (isAWSInstanceRunning cfg envs).err =
      some ("instance " ++ cfg.instanceID ++ " is not running") ∧
    containsSub (chars cfg.instanceID)
      (chars ("instance " ++ cfg.instanceID ++ " is not running")) = true := by
  constructor
  · unfold isAWSInstanceRunning
    rw [if_neg (by simp [hw])]
    simp [hfail]
  · have h : chars ("instance " ++ cfg.instanceID ++ " is not running") =
        chars "instance " ++ chars cfg.instanceID ++ chars " is not running" := by
      simp [chars, String.data_append]
    rw [h, List.append_assoc]
    rw [← List.append_assoc]
    exact containsSub_sandwich (chars cfg.instanceID) (chars "instance ")
      (chars " is not running")

/-- Witness for `C4_budget_exhausted_error` at a concrete input. -/
theorem C4_budget_exhausted_error_witness :
    (isAWSInstanceRunning c4Cfg c4Envs).err =
      some ("instance " ++ "i-042" ++ " is not running") ∧
    containsSub (chars "i-042")
      (chars ("instance " ++ "i-042" ++ " is not running")) = true :=
  C4_budget_exhausted_error c4Cfg c4Envs rfl (by decide)

/-! ## Claim C7: gate ordering within one iteration -/

/-- The gates one iteration executes, in source order, for a given
configuration and incoming `createdSSHKey` value: the SSH-key gate is present
only when instance-connect is enabled and no key was created in an earlier
iteration, and the API-server / node gates only for the control plane. -/
def gateOrder (cfg : PollConfig) (created : Bool) : List Gate :=
  [.running, .network] ++
    (if cfg.ec2InstanceConnect && !created then [.sshKey] else []) ++
    [.runtime, .cloudInit] ++
    (if cfg.controlPlaneIP = cfg.privateIP then [.apiServer, .nodeRegistered] else [])

/-- Take elements while `p` holds, also keeping the first failing element. -/
def takeThrough (p : α → Bool) : List α → List α
  | [] => []
  | a :: as => if p a then a :: takeThrough p as else [a]

/-- Configuration (instance-connect enabled, worker instance) used to refute
C7's same-iteration requirement. -/
def c7Cfg : PollConfig :=
  ⟨"i-100", "10.0.0.1", "10.1.1.1", true, true⟩

/-- Iterations 0 and 1 fail the container-runtime gate (the SSH key is
created successfully in iteration 0); iteration 2 passes everything. -/
def c7Envs : Nat → IterEnv := fun i =>
  { describeOk := true, stateRunning := true, nicCount := 1, sshKeyOk := true
    runtime := if i < 2 then ⟨chars "no runtime yet", false⟩
               else ⟨chars "containerd.service running", true⟩
    cloudInit := ⟨chars "code=exited, status=0/SUCCESS", true⟩
    apiVersion := ⟨chars "", true⟩
    getNodes := ⟨chars "", true⟩ }

/-- C7 is false on the code as stated: in iteration 1 the container-runtime
gate is attempted although its predecessor gate (SSH key injection) was not
attempted — and hence did not succeed — in that same iteration: the
`createdSSHKey` flag set in iteration 0 makes later iterations skip the
SSH-key gate entirely. -/
theorem C7_counterexample :
    (isAWSInstanceRunning c7Cfg c7Envs).trace =
      [[.running, .network, .sshKey, .runtime],
       [.running, .network, .runtime],
       [.running, .network, .runtime, .cloudInit]] ∧
    Gate.runtime ∈ [Gate.running, .network, .runtime] ∧
    Gate.sshKey ∉ [Gate.running, .network, .runtime] := by
  decide

/-- C7 (amended): within one iteration the gates execute in the fixed source
order given by `gateOrder` — which omits the SSH-key gate once a key was
created in an earlier iteration (or when instance-connect is disabled) — the
iteration stops at the first failing gate (every gate attempted after another
one implies that earlier gate succeeded in this same iteration), and the
iteration sets `instanceRunning` exactly when every gate of the order
succeeds. -/
theorem C7_gate_order (cfg : PollConfig) (created : Bool) (e : IterEnv) :
    (runIter cfg created e).attempted =
      takeThrough (gateOk e) (gateOrder cfg created) ∧
    (runIter cfg created e).ok = (gateOrder cfg created).all (gateOk e) := by
  by_cases h1 : (e.describeOk && e.stateRunning) = true
  · by_cases h2 : e.nicCount = 0
    · constructor <;>
        simp [runIter, gateOrder, takeThrough, gateOk, h1, h2]
    · by_cases h3 : (cfg.ec2InstanceConnect && !created) = true
      · by_cases h4 : e.sshKeyOk = true
        · by_cases h5 : (e.runtime.ok &&
              (containsSub (chars "containerd.service") e.runtime.out ||
               containsSub (chars "crio.service") e.runtime.out)) = true
          · by_cases h6 : (e.cloudInit.ok &&
                containsSub (chars "exited") e.cloudInit.out) = true
            · by_cases h7 : cfg.controlPlaneIP = cfg.privateIP
              · by_cases h8 : e.apiVersion.ok = true
                · by_cases h9 : (e.getNodes.ok &&
                      containsSub (chars "node/") e.getNodes.out) = true
                  · constructor <;> simp [runIter, runIterTail, gateOrder,
                      takeThrough, gateOk, h1, h2, h3, h4, h5, h6, h7, h8, h9]
                  · constructor <;> simp [runIter, runIterTail, gateOrder,
                      takeThrough, gateOk, h1, h2, h3, h4, h5, h6, h7, h8, h9]
                · constructor <;> simp [runIter, runIterTail, gateOrder,
                    takeThrough, gateOk, h1, h2, h3, h4, h5, h6, h7, h8]
              · constructor <;> simp [runIter, runIterTail, gateOrder,
                  takeThrough, gateOk, h1, h2, h3, h4, h5, h6, h7]
            · constructor <;> simp [runIter, runIterTail, gateOrder,
                takeThrough, gateOk, h1, h2, h3, h4, h5, h6]
          · constructor <;> simp [runIter, runIterTail, gateOrder,
              takeThrough, gateOk, h1, h2, h3, h4, h5]
        · constructor <;> simp [runIter, runIterTail, gateOrder,
            takeThrough, gateOk, h1, h2, h3, h4]
      · by_cases h5 : (e.runtime.ok &&
            (containsSub (chars "containerd.service") e.runtime.out ||
             containsSub (chars "crio.service") e.runtime.out)) = true
        · by_cases h6 : (e.cloudInit.ok &&
              containsSub (chars "exited") e.cloudInit.out) = true
          · by_cases h7 : cfg.controlPlaneIP = cfg.privateIP
            · by_cases h8 : e.apiVersion.ok = true
              · by_cases h9 : (e.getNodes.ok &&
                    containsSub (chars "node/") e.getNodes.out) = true
                · constructor <;> simp [runIter, runIterTail, gateOrder,
                    takeThrough, gateOk, h1, h2, h3, h5, h6, h7, h8, h9]
                · constructor <;> simp [runIter, runIterTail, gateOrder,
                    takeThrough, gateOk, h1, h2, h3, h5, h6, h7, h8, h9]
              · constructor <;> simp [runIter, runIterTail, gateOrder,
                  takeThrough, gateOk, h1, h2, h3, h5, h6, h7, h8]
            · constructor <;> simp [runIter, runIterTail, gateOrder,
                takeThrough, gateOk, h1, h2, h3, h5, h6, h7]
          · constructor <;> simp [runIter, runIterTail, gateOrder,
              takeThrough, gateOk, h1, h2, h3, h5, h6]
        · constructor <;> simp [runIter, runIterTail, gateOrder,
            takeThrough, gateOk, h1, h2, h3, h5]
  · constructor <;>
      simp [runIter, gateOrder, takeThrough, gateOk, h1]

/-- Witness for `C7_gate_order` at a concrete input (control-plane instance
with instance-connect enabled, node-registration gate failing). -/
theorem C7_gate_order_witness :
    (runIter ⟨"i-9", "10.0.0.3", "10.0.0.3", true, true⟩ false
        (c7Envs 5)).attempted =
      takeThrough (gateOk (c7Envs 5))
        (gateOrder ⟨"i-9", "10.0.0.3", "10.0.0.3", true, true⟩ false) ∧
    (runIter ⟨"i-9", "10.0.0.3", "10.0.0.3", true, true⟩ false
        (c7Envs 5)).ok =
      (gateOrder ⟨"i-9", "10.0.0.3", "10.0.0.3", true, true⟩ false).all
        (gateOk (c7Envs 5)) :=
  C7_gate_order ⟨"i-9", "10.0.0.3", "10.0.0.3", true, true⟩ false (c7Envs 5)

/-! ## IAM provisioning: `utils.EnsureRole` (role.go) and
`utils.EnsureInstanceProfile` (instanceprofile.go)

Both helpers list the existing entities under the `/kubetest2/` path prefix
first and return success without any create call when the requested name is
already present; otherwise they create the entity under path `/kubetest2/`
(the role also gets a fixed set of policies attached, the profile gets the
role added unless the role already has a profile).  The IAM account state is
modelled explicitly; the API calls themselves are assumed to succeed. -/

structure IAMRole where
  roleName : String
  path : String
deriving DecidableEq, Repr

structure IAMInstanceProfile where
  profileName : String
  path : String
  roles : List String
deriving DecidableEq, Repr

structure IAMState where
  roles : List IAMRole
  profiles : List IAMInstanceProfile
  /-- `(roleName, policyArn)` pairs recorded by `AttachRolePolicy`. -/
  attached : List (String × String)
deriving DecidableEq, Repr

/-- The managed policies `EnsureRole` attaches to a newly created role. -/
def kubetest2Policies : List String :=
  ["arn:aws:iam::aws:policy/AmazonEC2ContainerRegistryReadOnly",
   "arn:aws:iam::aws:policy/AmazonEKSClusterPolicy",
   "arn:aws:iam::aws:policy/AmazonEKSServicePolicy",
   "arn:aws:iam::aws:policy/AmazonEKSVPCResourceController",
   "arn:aws:iam::aws:policy/AmazonEKSWorkerNodePolicy",
   "arn:aws:iam::aws:policy/AmazonEKS_CNI_Policy",
   "arn:aws:iam::aws:policy/AmazonS3ReadOnlyAccess"]

/-- `ListRoles`/`ListInstanceProfiles` path-prefix filter. -/
def underKubetest2 (path : String) : Bool :=
  (chars "/kubetest2/").isPrefixOf (chars path)

/-- `utils.EnsureRole`: returns the new IAM state and whether a `CreateRole`
call was performed. -/
def EnsureRole (s : IAMState) (roleName : String) : IAMState × Bool :=
  let listed := s.roles.filter (fun r => underKubetest2 r.path)
  if listed.any (fun r => r.roleName == roleName) then (s, false)
  else
    ({ s with
        roles := s.roles ++ [⟨roleName, "/kubetest2/"⟩],
        attached := s.attached ++ kubetest2Policies.map (fun p => (roleName, p)) },
     true)

/-- `AddRoleToInstanceProfile`: adds `roleName` to the profile named
`profileName`. -/
def addRoleToProfile (ps : List IAMInstanceProfile) (profileName roleName : String) :
    List IAMInstanceProfile :=
  ps.map (fun p =>
    if p.profileName == profileName then { p with roles := p.roles ++ [roleName] } else p)

/-- `utils.EnsureInstanceProfile`: returns the new IAM state and whether a
`CreateInstanceProfile` call was performed. -/
def EnsureInstanceProfile (s : IAMState) (instanceProfileName roleName : String) :
    IAMState × Bool :=
  let listed := s.profiles.filter (fun p => underKubetest2 p.path)
  if listed.any (fun p => p.profileName == instanceProfileName) then (s, false)
  else
    let s1 : IAMState :=
      { s with profiles := s.profiles ++ [⟨instanceProfileName, "/kubetest2/", []⟩] }
    let profilesForRole :=
      s1.profiles.filter (fun p => p.roles.any (fun r => r == roleName))
    if profilesForRole.length != 0 then (s1, true)
    else ({ s1 with profiles := addRoleToProfile s1.profiles instanceProfileName roleName },
          true)

/-- A role of the given name listed under the `/kubetest2/` path makes
`EnsureRole` a no-op success. -/
theorem EnsureRole_noop (s : IAMState) (n : String)
    (h : ∃ r ∈ s.roles, r.roleName = n ∧ underKubetest2 r.path = true) :
    EnsureRole s n = (s, false) := by
  obtain ⟨r, hr, hn, hp⟩ := h
  unfold EnsureRole
  rw [if_pos]
  rw [List.any_eq_true]
  exact ⟨r, List.mem_filter.mpr ⟨hr, hp⟩, by simp [hn]⟩

/-- A profile of the given name listed under the `/kubetest2/` path makes
`EnsureInstanceProfile` a no-op success. -/
theorem EnsureInstanceProfile_noop (s : IAMState) (n rn : String)
    (h : ∃ p ∈ s.profiles, p.profileName = n ∧ underKubetest2 p.path = true) :
    EnsureInstanceProfile s n rn = (s, false) := by
  obtain ⟨p, hp, hn, hpath⟩ := h
  unfold EnsureInstanceProfile
  rw [if_pos]
  rw [List.any_eq_true]
  exact ⟨p, List.mem_filter.mpr ⟨hp, hpath⟩, by simp [hn]⟩

/-- After `EnsureRole` runs once, the role is present under `/kubetest2/`. -/
theorem EnsureRole_establishes (s : IAMState) (n : String) :
    ∃ r ∈ (EnsureRole s n).1.roles, r.roleName = n ∧ underKubetest2 r.path = true := by
  unfold EnsureRole
  by_cases h : (s.roles.filter (fun r => underKubetest2 r.path)).any
      (fun r => r.roleName == n) = true
  · rw [if_pos h]
    rw [List.any_eq_true] at h
    obtain ⟨r, hr, hn⟩ := h
    exact ⟨r, List.mem_filter.mp hr |>.1, by simpa using hn,
      (List.mem_filter.mp hr).2⟩
  · rw [if_neg h]
    refine ⟨⟨n, "/kubetest2/"⟩, by simp, rfl, ?_⟩
    have h2 := isPrefixOf_append_self (chars "/kubetest2/") []
    rw [List.append_nil] at h2
    exact h2

/-- After `EnsureInstanceProfile` runs once, the profile is present under
`/kubetest2/`. -/
theorem EnsureInstanceProfile_establishes (s : IAMState) (n rn : String) :
    ∃ p ∈ (EnsureInstanceProfile s n rn).1.profiles,
      p.profileName = n ∧ underKubetest2 p.path = true := by
  unfold EnsureInstanceProfile
  by_cases h : (s.profiles.filter (fun p => underKubetest2 p.path)).any
      (fun p => p.profileName == n) = true
  · rw [if_pos h]
    rw [List.any_eq_true] at h
    obtain ⟨p, hp, hn⟩ := h
    refine ⟨p, (List.mem_filter.mp hp).1, by simpa using hn,
      (List.mem_filter.mp hp).2⟩
  · rw [if_neg h]
    have hself : underKubetest2 "/kubetest2/" = true := by
      have h3 := isPrefixOf_append_self (chars "/kubetest2/") []
      rw [List.append_nil] at h3
      exact h3
    by_cases h2 : (((s.profiles ++ [(⟨n, "/kubetest2/", []⟩ : IAMInstanceProfile)]).filter
        (fun p => p.roles.any (fun r => r == rn))).length != 0) = true
    · rw [if_pos h2]
      exact ⟨⟨n, "/kubetest2/", []⟩, by simp, rfl, hself⟩
    · rw [if_neg h2]
      refine ⟨⟨n, "/kubetest2/", [rn]⟩, ?_, rfl, hself⟩
      simp only [addRoleToProfile, List.map_append, List.mem_append]
      right
      simp

/-- C9: role and instance-profile provisioning is idempotent.  When the role
(resp. profile) of that name already exists under the `/kubetest2/` path, the
call performs no create and returns the state unchanged; consequently a
second call right after a first one never creates a duplicate. -/
theorem C9_provisioning_idempotent (s : IAMState) (n rn : String) :
    (∀ s₀ : IAMState,
      (∃ r ∈ s₀.roles, r.roleName = n ∧ underKubetest2 r.path = true) →
        EnsureRole s₀ n = (s₀, false)) ∧
    (∀ s₀ : IAMState,
      (∃ p ∈ s₀.profiles, p.profileName = n ∧ underKubetest2 p.path = true) →
        EnsureInstanceProfile s₀ n rn = (s₀, false)) ∧
    EnsureRole (EnsureRole s n).1 n = ((EnsureRole s n).1, false) ∧
    EnsureInstanceProfile (EnsureInstanceProfile s n rn).1 n rn =
      ((EnsureInstanceProfile s n rn).1, false) := by
  refine ⟨fun s₀ h => EnsureRole_noop s₀ n h,
    fun s₀ h => EnsureInstanceProfile_noop s₀ n rn h, ?_, ?_⟩
  · exact EnsureRole_noop _ n (EnsureRole_establishes s n)
  · exact EnsureInstanceProfile_noop _ n rn (EnsureInstanceProfile_establishes s n rn)

/-- Witness for `C9_provisioning_idempotent` at a concrete IAM state. -/
theorem C9_provisioning_idempotent_witness :
    (∀ s₀ : IAMState,
      (∃ r ∈ s₀.roles, r.roleName = "provider-aws-test-role" ∧
          underKubetest2 r.path = true) →
        EnsureRole s₀ "provider-aws-test-role" = (s₀, false)) ∧
    (∀ s₀ : IAMState,
      (∃ p ∈ s₀.profiles, p.profileName = "provider-aws-test-role" ∧
          underKubetest2 p.path = true) →
        EnsureInstanceProfile s₀ "provider-aws-test-role" "worker-role" =
          (s₀, false)) ∧
    EnsureRole (EnsureRole ⟨[], [], []⟩ "provider-aws-test-role").1
        "provider-aws-test-role" =
      ((EnsureRole ⟨[], [], []⟩ "provider-aws-test-role").1, false) ∧
    EnsureInstanceProfile
        (EnsureInstanceProfile ⟨[], [], []⟩ "provider-aws-test-role"
          "worker-role").1 "provider-aws-test-role" "worker-role" =
      ((EnsureInstanceProfile ⟨[], [], []⟩ "provider-aws-test-role"
          "worker-role").1, false) :=
  C9_provisioning_idempotent ⟨[], [], []⟩ "provider-aws-test-role" "worker-role"

/-! ## Instance launch: `utils.LaunchNewInstance`, `utils.WaitForInstanceToRun`
(utils/ec2.go) and `AWSRunner.createAWSInstance` (runner.go)

`LaunchNewInstance` looks up the image's root device, substitutes the
control-plane-IP placeholder into the user-data, resolves the instance
profile ARN, calls `RunInstances` and hands the returned instance to
`WaitForInstanceToRun`, which re-describes it up to 30 times (5 s sleeps
elided) until its state is `running` — returning the most recently described
instance either way.  `createAWSInstance` then fails if the returned instance
still lacks a public or private IP, otherwise builds the `awsInstance`
record. -/

/-- A placeholder token: two opening braces, `NAME`, two closing braces. -/
def tok (s : String) : List Char := chars ("\x7b\x7b" ++ s ++ "\x7d\x7d")

/-- The control-plane-IP placeholder substituted at launch time. -/
def tokControlPlaneIP : List Char := tok "KUBEADM_CONTROL_PLANE_IP"

/-- The slice of `ec2.Instance` metadata the deployer reads. -/
structure EC2Instance where
  instanceId : String
  /-- `instance.State.Name == running`. -/
  stateRunning : Bool
  publicIpAddress : Option String
  privateIpAddress : Option String
deriving DecidableEq, Repr

/-- Per-iteration `DescribeInstances` result; `none` is an API error. -/
def DescribeEnv := Nat → Option EC2Instance

/-- Results of the external calls `LaunchNewInstance` makes. -/
structure LaunchEnv where
  /-- `DescribeImages` succeeded (root device name available). -/
  describeImagesOk : Bool
  /-- `GetInstanceProfileArn` result (consulted only when a profile is named). -/
  profileArn : Option String
  /-- `RunInstances` result: `rsv.Instances[0]`, or `none` on API error. -/
  runInstance : Option EC2Instance
  /-- the wait loop's describes. -/
  describe : DescribeEnv

/-- `utils.InternalAWSImage`. -/
structure InternalAWSImage where
  amiID : String
  instanceType : String
  userData : List Char
  instanceProfile : String
deriving DecidableEq, Repr

/-- `utils.WaitForInstanceToRun`: up to `fuel` describes starting at
iteration `i`; a describe error keeps the previous instance value; the loop
breaks at the first `running` state and returns the last described
instance. -/
def WaitForInstanceToRun (d : DescribeEnv) : Nat → Nat → EC2Instance → EC2Instance
  | 0, _, inst => inst
  | n + 1, i, inst =>
    match d i with
    | none => WaitForInstanceToRun d n (i + 1) inst
    | some inst2 =>
      if inst2.stateRunning then inst2 else WaitForInstanceToRun d n (i + 1) inst2

/-- `utils.LaunchNewInstance`: returns the (waited-for) instance together
with the user-data actually placed in the `RunInstances` input (`none` when
the image has empty user-data). -/
def LaunchNewInstance (env : LaunchEnv) (controlPlaneIP : List Char)
    (img : InternalAWSImage) : Except String (EC2Instance × Option (List Char)) :=
  if ¬env.describeImagesOk then .error "describing images"
  else
    let data : Option (List Char) :=
      if img.userData.length != 0 then
        some (replaceAll img.userData tokControlPlaneIP controlPlaneIP)
      else none
    if img.instanceProfile != "" && env.profileArn.isNone then
      .error "getting instance profile arn"
    else
      match env.runInstance with
      | none => .error "creating instance"
      | some inst0 => .ok (WaitForInstanceToRun env.describe 30 0 inst0, data)

/-- The `awsInstance` record built by `createAWSInstance`. -/
structure AwsInstanceRec where
  instanceID : String
  publicIP : String
  privateIP : String
deriving DecidableEq, Repr

/-- `AWSRunner.createAWSInstance` (after flag/subnet handling): launch, then
reject instances still missing a public or private IP. -/
def createAWSInstance (env : LaunchEnv) (controlPlaneIP : List Char)
    (img : InternalAWSImage) : Except String AwsInstanceRec :=
  match LaunchNewInstance env controlPlaneIP img with
  | .error e => .error ("unable to launch instance : " ++ e)
  | .ok (inst, _) =>
    match inst.publicIpAddress with
    | none => .error ("missing public ip address for instance id : " ++ inst.instanceId)
    | some pub =>
      match inst.privateIpAddress with
      | none => .error ("missing private ip address for instance id : " ++ inst.instanceId)
      | some priv => .ok ⟨inst.instanceId, pub, priv⟩

/-- The wait loop returns the first described instance in `running` state. -/
theorem WaitForInstanceToRun_reaches (d : DescribeEnv) (j : Nat)
    (target : EC2Instance) (hrun : target.stateRunning = true)
    (hj : d j = some target)
    (hbefore : ∀ k, k < j → ∀ r, d k = some r → r.stateRunning = false) :
    ∀ n i inst0, i ≤ j → j < i + n →
      WaitForInstanceToRun d n i inst0 = target := by
  intro n
  induction n with
  | zero => intro i inst0 h1 h2; omega
  | succ m ih =>
    intro i inst0 h1 h2
    by_cases hij : i = j
    · subst hij
      simp only [WaitForInstanceToRun, hj, hrun, if_true]
    · have hlt : i < j := lt_of_le_of_ne h1 hij
      simp only [WaitForInstanceToRun]
      cases hd : d i with
      | none =>
        simp only [hd]
        exact ih (i + 1) inst0 (by omega) (by omega)
      | some r =>
        have hr : r.stateRunning = false := hbefore i hlt r hd
        simp only [hd, hr, Bool.false_eq_true, if_false]
        exact ih (i + 1) r (by omega) (by omega)

/-- C10: `LaunchNewInstance` waits (bounded, 30 describes) for the created
instance to reach the `running` state; a create response whose network
interface lacks addresses is not a synchronous failure — the loop re-polls
and the returned `awsInstance` record carries the instance id and the
public/private IPs of the first `running` describe; `createAWSInstance`
succeeds exactly when those addresses are present. -/
theorem C10_launch_waits_and_returns_record (env : LaunchEnv)
    (cp : List Char) (img : InternalAWSImage) (inst0 target : EC2Instance)
    (j : Nat) (pub priv : String)
    (hok : env.describeImagesOk = true)
    (harn : (img.instanceProfile != "" && env.profileArn.isNone) = false)
    (hri : env.runInstance = some inst0)
    (hj : j < 30) (hjt : env.describe j = some target)
    (hrun : target.stateRunning = true)
    (hbefore : ∀ k, k < j → ∀ r, env.describe k = some r → r.stateRunning = false)
    (hpub : target.publicIpAddress = some pub)
    (hpriv : target.privateIpAddress = some priv) :
    LaunchNewInstance env cp img =
      .ok (target,
        if img.userData.length != 0 then
          some (replaceAll img.userData tokControlPlaneIP cp)
        else none) ∧
    createAWSInstance env cp img = .ok ⟨target.instanceId, pub, priv⟩ := by
  have hwait : WaitForInstanceToRun env.describe 30 0 inst0 = target :=
    WaitForInstanceToRun_reaches env.describe j target hrun hjt hbefore 30 0 inst0
      (by omega) (by omega)
  have hlaunch : LaunchNewInstance env cp img =
      .ok (target,
        if img.userData.length != 0 then
          some (replaceAll img.userData tokControlPlaneIP cp)
        else none) := by
    unfold LaunchNewInstance
    rw [if_neg (by simp [hok])]
    rw [if_neg (by simp [harn])]
    rw [hri]
    simp only [hwait]
  refine ⟨hlaunch, ?_⟩
  unfold createAWSInstance
  rw [hlaunch]
  simp [hpub, hpriv]

/-- Concrete launch environment: the create response carries no addresses and
is not yet running; the third describe reports `running` with both IPs. -/
def c10Env : LaunchEnv :=
  { describeImagesOk := true
    profileArn := some "arn:aws:iam::123:instance-profile/kubetest2/p"
    runInstance := some ⟨"i-555", false, none, none⟩
    describe := fun k =>
      match k with
      | 0 => none
      | 1 => some ⟨"i-555", false, none, none⟩
      | _ => some ⟨"i-555", true, some "3.3.3.3", some "10.0.0.7"⟩ }

/-- Witness for `C10_launch_waits_and_returns_record` at a concrete input. -/
theorem C10_launch_waits_and_returns_record_witness :
    LaunchNewInstance c10Env (chars "10.0.0.2")
        ⟨"ami-1", "t3a.medium", chars "set -e", "p"⟩ =
      .ok (⟨"i-555", true, some "3.3.3.3", some "10.0.0.7"⟩,
        if (chars "set -e").length != 0 then
          some (replaceAll (chars "set -e") tokControlPlaneIP (chars "10.0.0.2"))
        else none) ∧
    createAWSInstance c10Env (chars "10.0.0.2")
        ⟨"ami-1", "t3a.medium", chars "set -e", "p"⟩ =
      .ok ⟨"i-555", "3.3.3.3", "10.0.0.7"⟩ := by
  have h := C10_launch_waits_and_returns_record c10Env (chars "10.0.0.2")
    ⟨"ami-1", "t3a.medium", chars "set -e", "p"⟩
    ⟨"i-555", false, none, none⟩ ⟨"i-555", true, some "3.3.3.3", some "10.0.0.7"⟩
    2 "3.3.3.3" "10.0.0.7" rfl (by decide) rfl (by omega) rfl rfl
    (fun k hk r hr => by
      interval_cases k
      · exact absurd hr (by simp [c10Env])
      · have h1 : c10Env.describe 1 =
            some (⟨"i-555", false, none, none⟩ : EC2Instance) := rfl
        rw [h1] at hr
        injection hr with h2
        rw [← h2])
    rfl rfl
  exact h

/-! ## Image preparation: `AWSRunner.prepareAWSImages` (runner.go) and the
launch sequence of `deployer.Up` (up.go)

`prepareAWSImages` resolves the staging version, validates the S3 bucket,
renders the control-plane and worker user-data payloads with `getUserData`
and rejects each payload larger than 16384 bytes (the source's error text
says "worker user data" in both branches), then builds the image list:
the control-plane entry first, followed by `NumNodes` worker entries.
`Up` runs `runner.Validate` (which ends in `prepareAWSImages`) before any
instance is launched, then launches one instance per image entry, recording
the first successfully launched instance's private IP in `controlPlaneIP`
while that field is still empty.  The results of the external/file-reading
steps are supplied by a `PrepEnv`. -/

structure PrepEnv where
  /-- `--stage-version` flag; empty means derive via `SourceVersion`. -/
  stageVersion : String
  /-- `utils.SourceVersion(RepoRoot)` result. -/
  sourceVersion : Except String String
  /-- `utils.ValidateS3Bucket` result (`none` is success). -/
  s3Err : Option String
  /-- `getUserData(UserDataFile, version, true)` result. -/
  getUserDataCP : Except String (List Char)
  /-- `getUserData(WorkerUserDataFile, version, false)` result. -/
  getUserDataWorker : Except String (List Char)
  image : String
  workerImage : String
  instanceType : String
  workerInstanceType : String
  instanceProfile : String
  numNodes : Nat

/-- `AWSRunner.prepareAWSImages`. -/
def prepareAWSImages (env : PrepEnv) : Except String (List InternalAWSImage) :=
  match (if env.stageVersion = "" then env.sourceVersion else .ok env.stageVersion) with
  | .error e => .error ("extracting version from repo, " ++ e)
  | .ok _ =>
    match env.s3Err with
    | some e => .error ("unable to validate s3 bucket : " ++ e)
    | none =>
      match env.getUserDataCP with
      | .error e => .error ("unable to load controlplane user data : " ++ e)
      | .ok cp =>
        if 16384 < cp.length then
          .error ("worker user data is too large, must be less than 16384 bytes, is "
            ++ toString cp.length)
        else
          match env.getUserDataWorker with
          | .error e => .error ("unable to load worker user data : " ++ e)
          | .ok w =>
            if 16384 < w.length then
              .error ("worker user data is too large, must be less than 16384 bytes, is "
                ++ toString w.length)
            else
              .ok (⟨env.image, env.instanceType, cp, env.instanceProfile⟩ ::
                List.replicate env.numNodes
                  ⟨env.workerImage, env.workerInstanceType, w, env.instanceProfile⟩)

/-- Mutable runner state touched by `Up`'s launch loop. -/
structure UpState where
  instances : List AwsInstanceRec
  controlPlaneIP : String
  /-- number of assignments to `runner.controlPlaneIP`. -/
  cpWrites : Nat
deriving DecidableEq, Repr

/-- The launch loop of `deployer.Up`: one `createAWSInstance` per image;
a launch error aborts; after each successful launch the control-plane IP is
recorded iff still empty.  (The concurrent readiness polling it spawns is
outside this model.) -/
def upLoop (create : Nat → Except String AwsInstanceRec) :
    List InternalAWSImage → Nat → UpState → UpState × Option String
  | [], _, st => (st, none)
  | _ :: rest, idx, st =>
    match create idx with
    | .error e => (st, some e)
    | .ok inst =>
      let st1 : UpState := { st with instances := st.instances ++ [inst] }
      let st2 : UpState :=
        if st1.controlPlaneIP = "" then
          { st1 with controlPlaneIP := inst.privateIP, cpWrites := st1.cpWrites + 1 }
        else st1
      upLoop create rest (idx + 1) st2

/-- `deployer.Up` after `verifyKubectl`: validate first (no instance is
launched when validation fails), then run the launch loop over the prepared
image list. -/
def Up (validate : Except String (List InternalAWSImage))
    (create : Nat → Except String AwsInstanceRec) : UpState × Option String :=
  match validate with
  | .error e => (⟨[], "", 0⟩, some e)
  | .ok imgs => upLoop create imgs 0 ⟨[], "", 0⟩

/-- C3: the user-data size ceiling is enforced per role inside
`prepareAWSImages`, i.e. during validation: an oversized control-plane or
worker payload (> 16384 bytes) makes preparation fail; when both payloads
are within the ceiling (and the other validation inputs are fine) the
prepared image list carries both payloads byte-identical (never truncated);
and a failed validation means `Up` launches no instance at all. -/
theorem C3_user_data_size_gate :
    (∀ (env : PrepEnv) (cp : List Char), env.getUserDataCP = .ok cp →
      16384 < cp.length → ∀ imgs, prepareAWSImages env ≠ .ok imgs) ∧
    (∀ (env : PrepEnv) (w : List Char), env.getUserDataWorker = .ok w →
      16384 < w.length → ∀ imgs, prepareAWSImages env ≠ .ok imgs) ∧
    (∀ (env : PrepEnv) (v : String) (cp w : List Char),
      (if env.stageVersion = "" then env.sourceVersion else .ok env.stageVersion) = .ok v →
      env.s3Err = none → env.getUserDataCP = .ok cp → env.getUserDataWorker = .ok w →
      cp.length ≤ 16384 → w.length ≤ 16384 →
      prepareAWSImages env =
        .ok (⟨env.image, env.instanceType, cp, env.instanceProfile⟩ ::
          List.replicate env.numNodes
            ⟨env.workerImage, env.workerInstanceType, w, env.instanceProfile⟩)) ∧
    (∀ (create : Nat → Except String AwsInstanceRec) (e : String),
      Up (.error e) create = (⟨[], "", 0⟩, some e)) := by
  refine ⟨?_, ?_, ?_, ?_⟩
  · intro env cp hcp hlen imgs
    unfold prepareAWSImages
    cases hv : (if env.stageVersion = "" then env.sourceVersion else .ok env.stageVersion) with
    | error e => simp
    | ok v =>
      cases hs : env.s3Err with
      | some e => simp
      | none => simp [hcp, hlen]
  · intro env w hw hlen imgs
    unfold prepareAWSImages
    cases hv : (if env.stageVersion = "" then env.sourceVersion else .ok env.stageVersion) with
    | error e => simp
    | ok v =>
      cases hs : env.s3Err with
      | some e => simp
      | none =>
        cases hcp : env.getUserDataCP with
        | error e => simp
        | ok cp =>
          by_cases hcl : 16384 < cp.length
          · simp [hcl]
          · simp [hcl, hw, hlen]
  · intro env v cp w hv hs hcp hw hcl hwl
    have h1 : ¬16384 < cp.length := by omega
    have h2 : ¬16384 < w.length := by omega
    unfold prepareAWSImages
    rw [hv]
    simp only [hs, hcp, hw, h1, h2, if_false]
  · intro create e
    rfl

/-- Concrete preparation environment with in-ceiling payloads. -/
def c3Env : PrepEnv :=
  { stageVersion := "v1.31.0", sourceVersion := .error "unused"
    s3Err := none
    getUserDataCP := .ok (chars "#cloud-config control-plane")
    getUserDataWorker := .ok (chars "#cloud-config worker")
    image := "ami-cp", workerImage := "ami-w"
    instanceType := "r5d.4xlarge", workerInstanceType := "r5d.4xlarge"
    instanceProfile := "provider-aws-test-instance-profile", numNodes := 2 }

/-- Witness for `C3_user_data_size_gate` at concrete inputs (an oversized
control-plane payload of 16385 bytes is rejected; the in-ceiling payloads of
`c3Env` survive untouched; a failed validation launches nothing). -/
theorem C3_user_data_size_gate_witness :
    (∀ imgs, prepareAWSImages
        { c3Env with getUserDataCP := .ok (List.replicate 16385 'a') } ≠ .ok imgs) ∧
    prepareAWSImages c3Env =
      .ok (⟨"ami-cp", "r5d.4xlarge", chars "#cloud-config control-plane",
              "provider-aws-test-instance-profile"⟩ ::
        List.replicate 2
          ⟨"ami-w", "r5d.4xlarge", chars "#cloud-config worker",
            "provider-aws-test-instance-profile"⟩) ∧
    Up (.error "oversized") (fun _ => .error "never called") =
      (⟨[], "", 0⟩, some "oversized") := by
  refine ⟨?_, ?_, ?_⟩
  · exact fun imgs => C3_user_data_size_gate.1
      { c3Env with getUserDataCP := .ok (List.replicate 16385 'a') }
      (List.replicate 16385 'a') rfl (by rw [List.length_replicate]; omega) imgs
  · exact C3_user_data_size_gate.2.2.1 c3Env "v1.31.0"
      (chars "#cloud-config control-plane") (chars "#cloud-config worker")
      rfl rfl rfl rfl (by decide) (by decide)
  · exact C3_user_data_size_gate.2.2.2 (fun _ => .error "never called") "oversized"

/-- After the control-plane IP is set (non-empty) it is never touched again
by later loop iterations. -/
theorem upLoop_cp_stable (create : Nat → Except String AwsInstanceRec) :
    ∀ (imgs : List InternalAWSImage) (idx : Nat) (st : UpState),
      st.controlPlaneIP ≠ "" →
      (upLoop create imgs idx st).1.controlPlaneIP = st.controlPlaneIP ∧
      (upLoop create imgs idx st).1.cpWrites = st.cpWrites := by
  intro imgs
  induction imgs with
  | nil => intro idx st h; exact ⟨rfl, rfl⟩
  | cons img rest ih =>
    intro idx st h
    simp only [upLoop]
    cases hc : create idx with
    | error e => exact ⟨rfl, rfl⟩
    | ok inst =>
      simp only [if_neg h]
      exact ih (idx + 1) _ h

/-- C8: in every `Up` run over the prepared image list, `controlPlaneIP` is
written exactly once — while still empty, by the first launched instance
(built from the head of the image list) — provided launched instances carry
non-empty private IPs; every later launch leaves it unchanged; and the head
of `prepareAWSImages`'s list is the control-plane entry (control-plane AMI
and payload). -/
theorem C8_controlPlaneIP_written_once
    (create : Nat → Except String AwsInstanceRec)
    (imgs : List InternalAWSImage) (r0 : AwsInstanceRec)
    (h0 : create 0 = .ok r0) (hne : r0.privateIP ≠ "") (hi : imgs ≠ []) :
    (Up (.ok imgs) create).1.controlPlaneIP = r0.privateIP ∧
    (Up (.ok imgs) create).1.cpWrites = 1 ∧
    (∀ (env : PrepEnv) (imgs' : List InternalAWSImage),
      prepareAWSImages env = .ok imgs' →
      ∃ cp, env.getUserDataCP = .ok cp ∧
        imgs'.head? = some ⟨env.image, env.instanceType, cp, env.instanceProfile⟩) := by
  obtain ⟨img, rest, rfl⟩ : ∃ img rest, imgs = img :: rest := by
    cases imgs with
    | nil => exact absurd rfl hi
    | cons a b => exact ⟨a, b, rfl⟩
  have hstep : Up (.ok (img :: rest)) create =
      upLoop create rest 1 ⟨[r0], r0.privateIP, 1⟩ := by
    simp only [Up, upLoop, h0]
    rfl
  have hstable :=
    upLoop_cp_stable create rest 1 ⟨[r0], r0.privateIP, 1⟩ hne
  refine ⟨by rw [hstep]; exact hstable.1, by rw [hstep]; exact hstable.2, ?_⟩
  intro env imgs'
  unfold prepareAWSImages
  split
  · intro h; exact absurd h (by simp)
  · split
    · intro h; exact absurd h (by simp)
    · split
      · intro h; exact absurd h (by simp)
      · rename_i cp hcp
        split
        · intro h; exact absurd h (by simp)
        · split
          · intro h; exact absurd h (by simp)
          · split
            · intro h; exact absurd h (by simp)
            · intro h
              refine ⟨cp, hcp, ?_⟩
              rw [← Except.ok.inj h]
              rfl

/-- Witness for `C8_controlPlaneIP_written_once` at a concrete input: three
launches; only the first one's private IP lands in `controlPlaneIP`. -/
theorem C8_controlPlaneIP_written_once_witness :
    (Up (.ok [⟨"ami-cp", "t", chars "u1", "p"⟩,
              ⟨"ami-w", "t", chars "u2", "p"⟩,
              ⟨"ami-w", "t", chars "u3", "p"⟩])
        (fun i => .ok ⟨"i-" ++ toString i, "1.1.1." ++ toString i,
          "10.0.0." ++ toString i⟩)).1.controlPlaneIP = "10.0.0.0" ∧
    (Up (.ok [⟨"ami-cp", "t", chars "u1", "p"⟩,
              ⟨"ami-w", "t", chars "u2", "p"⟩,
              ⟨"ami-w", "t", chars "u3", "p"⟩])
        (fun i => .ok ⟨"i-" ++ toString i, "1.1.1." ++ toString i,
          "10.0.0." ++ toString i⟩)).1.cpWrites = 1 ∧
    (∀ (env : PrepEnv) (imgs' : List InternalAWSImage),
      prepareAWSImages env = .ok imgs' →
      ∃ cp, env.getUserDataCP = .ok cp ∧
        imgs'.head? = some ⟨env.image, env.instanceType, cp, env.instanceProfile⟩) :=
  C8_controlPlaneIP_written_once
    (fun i => .ok ⟨"i-" ++ toString i, "1.1.1." ++ toString i, "10.0.0." ++ toString i⟩)
    [⟨"ami-cp", "t", chars "u1", "p"⟩, ⟨"ami-w", "t", chars "u2", "p"⟩,
     ⟨"ami-w", "t", chars "u3", "p"⟩]
    ⟨"i-0", "1.1.1.0", "10.0.0.0"⟩ rfl (by decide) (by simp)

/-! ## Kubeconfig rewrite: `downloadKubeConfig` (up.go)

`downloadKubeConfig` fetches `/etc/kubernetes/admin.conf` and applies
`regexp.MustCompile("server: https://(.*):6443").ReplaceAllString(output,
"server: https://" + publicIp + ":6443")`.  In RE2, `.` never matches a
newline, so every match lies within one line; a match starts at the leftmost
position carrying the literal `server: https://` followed (somewhere later in
the line) by `:6443`, and the greedy `(.*)` extends the match to the *last*
`:6443` of the line.  Past that last `:6443` no further match can start, so
each line is replaced at most once; scanning resumes after the replacement,
i.e. on the following lines.  The rewrite is therefore modelled line by
line. -/

/-- The literal part before the host group. -/
def kcPat : List Char := chars "server: https://"

/-- The literal part after the host group. -/
def kcClose : List Char := chars ":6443"

/-- First index `i` (searching upward from `start` with the given fuel) where
`p i` holds. -/
def findFromAux (p : Nat → Bool) : Nat → Nat → Option Nat
  | 0, _ => none
  | fuel + 1, i => if p i then some i else findFromAux p fuel (i + 1)

/-- Last index `j < n` where `q j` holds. -/
def findLastBelow (q : Nat → Bool) : Nat → Option Nat
  | 0 => none
  | n + 1 => if q n then some n else findLastBelow q n

/-- A full regex match can start at index `i` of the line: the prefix literal
occurs at `i` and some closing literal occurs at or after `i + 16`. -/
def kcMatchStart (s : List Char) (i : Nat) : Bool :=
  subAt kcPat s i &&
    (List.range (s.length + 1)).any
      (fun j => decide (i + kcPat.length ≤ j) && subAt kcClose s j)

/-- Replace the (unique) leftmost-greedy match of
`server: https://(.*):6443` within one line by
`server: https://<ip>:6443`; a line without a match is returned unchanged. -/
def rewriteLine (ip s : List Char) : List Char :=
  match findFromAux (kcMatchStart s) (s.length + 1) 0 with
  | none => s
  | some i =>
    match findLastBelow
        (fun j => decide (i + kcPat.length ≤ j) && subAt kcClose s j)
        (s.length + 1) with
    | none => s
    | some j => s.take i ++ kcPat ++ ip ++ kcClose ++ s.drop (j + kcClose.length)

/-- Split a character stream into newline-separated lines. -/
def splitLines : List Char → List (List Char)
  | [] => [[]]
  | c :: rest =>
    if c = '\n' then [] :: splitLines rest
    else
      match splitLines rest with
      | [] => [[c]]
      | l :: ls => (c :: l) :: ls

/-- Join lines with newlines (inverse of `splitLines` on newline-free
lines). -/
def joinLines : List (List Char) → List Char
  | [] => []
  | [l] => l
  | l :: ls => l ++ '\n' :: joinLines ls

/-- The pattern substitution performed by `downloadKubeConfig` on the fetched
admin kubeconfig. -/
def kubeconfigRewrite (publicIp output : List Char) : List Char :=
  joinLines ((splitLines output).map (rewriteLine publicIp))

/-- A newline-free line splits to itself. -/
theorem splitLines_no_newline (l : List Char) (h : '\n' ∉ l) :
    splitLines l = [l] := by
  induction l with
  | nil => rfl
  | cons c r ih =>
    have hc : ¬(c = '\n') := fun hc => h (hc ▸ List.mem_cons_self c r)
    have hr : splitLines r = [r] := ih (fun hm => h (List.mem_cons_of_mem c hm))
    simp only [splitLines, if_neg hc, hr]

/-- Splitting distributes over a newline following a newline-free line. -/
theorem splitLines_append_newline (l t : List Char) (h : '\n' ∉ l) :
    splitLines (l ++ '\n' :: t) = l :: splitLines t := by
  induction l with
  | nil => simp [splitLines]
  | cons c r ih =>
    have hc : ¬(c = '\n') := fun hc => h (hc ▸ List.mem_cons_self c r)
    have hr := ih (fun hm => h (List.mem_cons_of_mem c hm))
    simp only [List.cons_append, splitLines, if_neg hc, List.append_eq, hr]

/-- `splitLines` inverts `joinLines` on non-empty lists of newline-free
lines. -/
theorem splitLines_joinLines (ls : List (List Char)) (hne : ls ≠ [])
    (h : ∀ l ∈ ls, '\n' ∉ l) : splitLines (joinLines ls) = ls := by
  induction ls with
  | nil => exact absurd rfl hne
  | cons l rest ih =>
    cases rest with
    | nil => exact splitLines_no_newline l (h l (by simp))
    | cons m ms =>
      have h1 : '\n' ∉ l := h l (by simp)
      have h2 : splitLines (joinLines (m :: ms)) = m :: ms :=
        ih (by simp) (fun x hx => h x (List.mem_cons_of_mem l hx))
      simp only [joinLines, splitLines_append_newline l _ h1, h2]

/-- An all-false predicate is never found. -/
theorem findFromAux_none (p : Nat → Bool) (hp : ∀ i, p i = false) :
    ∀ fuel start, findFromAux p fuel start = none := by
  intro fuel
  induction fuel with
  | zero => intro start; rfl
  | succ m ih =>
    intro start
    simp only [findFromAux, hp start, Bool.false_eq_true, if_false]
    exact ih (start + 1)

/-- The upward search returns the least index satisfying `p`. -/
theorem findFromAux_first (p : Nat → Bool) (k : Nat) (hk : p k = true)
    (hbefore : ∀ i, i < k → p i = false) :
    ∀ fuel start, start ≤ k → k < start + fuel →
      findFromAux p fuel start = some k := by
  intro fuel
  induction fuel with
  | zero => intro start h1 h2; omega
  | succ m ih =>
    intro start h1 h2
    by_cases hs : start = k
    · subst hs
      simp only [findFromAux, hk, if_true]
    · have : p start = false := hbefore start (by omega)
      simp only [findFromAux, this, Bool.false_eq_true, if_false]
      exact ih (start + 1) (by omega) (by omega)

/-- The downward search returns the greatest index below the bound
satisfying `q`. -/
theorem findLastBelow_last (q : Nat → Bool) (k : Nat) (hk : q k = true) :
    ∀ N, k < N → (∀ j, k < j → j < N → q j = false) →
      findLastBelow q N = some k := by
  intro N
  induction N with
  | zero => intro h1 _; omega
  | succ m ih =>
    intro h1 hafter
    by_cases hm : k = m
    · subst hm
      simp only [findLastBelow, hk, if_true]
    · have : q m = false := hafter m (by omega) (by omega)
      simp only [findLastBelow, this, Bool.false_eq_true, if_false]
      exact ih (by omega) (fun j hj1 hj2 => hafter j hj1 (by omega))

/-- A list is a Boolean prefix of itself. -/
theorem isPrefixOf_self (l : List Char) : l.isPrefixOf l = true := by
  have := isPrefixOf_append_self l []
  rwa [List.append_nil] at this

/-- A non-empty pattern never occurs at or past the end of the text. -/
theorem subAt_false_of_ge (pat l : List Char) (i : Nat) (hpat : pat ≠ [])
    (h : l.length ≤ i) : subAt pat l i = false := by
  unfold subAt
  rw [List.drop_eq_nil_of_le h]
  cases pat with
  | nil => exact absurd rfl hpat
  | cons p ps => rfl

/-- A line without a possible match start is left unchanged by the
rewrite. -/
theorem rewriteLine_id_of_no_match (ip l : List Char)
    (h : ∀ i, i ≤ l.length → kcMatchStart l i = false) :
    rewriteLine ip l = l := by
  have hall : ∀ i, kcMatchStart l i = false := by
    intro i
    by_cases hi : i ≤ l.length
    · exact h i hi
    · have hsub : subAt kcPat l i = false :=
        subAt_false_of_ge kcPat l i (by decide) (by omega)
      simp [kcMatchStart, hsub]
  unfold rewriteLine
  simp only [findFromAux_none (kcMatchStart l) hall (l.length + 1) 0]

/-- A line consisting of a match-free head `a`, the literal
`server: https://`, a host `h` and a final `:6443` (the only closing literal
at or after the host) is rewritten to `a ++ server: https://<ip>:6443`. -/
theorem rewriteLine_match (ip a h : List Char)
    (Hpat : ∀ i, i < a.length →
      subAt kcPat (a ++ kcPat ++ h ++ kcClose) i = false)
    (Hclose : ∀ j, j ≤ (a ++ kcPat ++ h ++ kcClose).length →
      a.length + kcPat.length ≤ j →
      subAt kcClose (a ++ kcPat ++ h ++ kcClose) j = true →
      j = a.length + kcPat.length + h.length) :
    rewriteLine ip (a ++ kcPat ++ h ++ kcClose) = a ++ kcPat ++ ip ++ kcClose := by
  set L := a ++ kcPat ++ h ++ kcClose with hLdef
  have hlen : L.length =
      a.length + kcPat.length + h.length + kcClose.length := by
    simp only [hLdef, List.length_append]
  have hsub1 : subAt kcPat L a.length = true := by
    unfold subAt
    have hL : L = a ++ (kcPat ++ (h ++ kcClose)) := by
      simp [hLdef, List.append_assoc]
    rw [hL, List.drop_left]
    have h2 := isPrefixOf_append_self kcPat (h ++ kcClose)
    rw [← List.append_assoc] at h2
    exact h2
  have hsub2 : subAt kcClose L (a.length + kcPat.length + h.length) = true := by
    unfold subAt
    have hL2 : L = (a ++ kcPat ++ h) ++ kcClose := by
      simp [hLdef, List.append_assoc]
    have hl3 : a.length + kcPat.length + h.length = (a ++ kcPat ++ h).length := by
      simp only [List.length_append]
    rw [hL2, hl3, List.drop_left]
    exact isPrefixOf_self kcClose
  have hstart : kcMatchStart L a.length = true := by
    simp only [kcMatchStart, hsub1, Bool.true_and, List.any_eq_true]
    refine ⟨a.length + kcPat.length + h.length, List.mem_range.mpr (by omega), ?_⟩
    simp only [hsub2, Bool.and_true]
    exact decide_eq_true (by omega)
  have hbefore : ∀ i, i < a.length → kcMatchStart L i = false := by
    intro i hi
    simp [kcMatchStart, Hpat i hi]
  have hfirst : findFromAux (kcMatchStart L) (L.length + 1) 0 = some a.length :=
    findFromAux_first (kcMatchStart L) a.length hstart hbefore (L.length + 1) 0
      (by omega) (by omega)
  have hqj : (fun j => decide (a.length + kcPat.length ≤ j) && subAt kcClose L j)
      (a.length + kcPat.length + h.length) = true := by
    simp only [hsub2, Bool.and_true]
    exact decide_eq_true (by omega)
  have hafter : ∀ j, a.length + kcPat.length + h.length < j → j < L.length + 1 →
      (fun j => decide (a.length + kcPat.length ≤ j) && subAt kcClose L j) j
        = false := by
    intro j h1 h2
    by_cases hs : subAt kcClose L j = true
    · have := Hclose j (by omega) (by omega) hs
      omega
    · have hs2 : subAt kcClose L j = false := by
        revert hs; cases subAt kcClose L j <;> simp
      simp [hs2]
  have hlast : findLastBelow
      (fun j => decide (a.length + kcPat.length ≤ j) && subAt kcClose L j)
      (L.length + 1) = some (a.length + kcPat.length + h.length) :=
    findLastBelow_last _ _ hqj (L.length + 1) (by omega) hafter
  have htake : L.take a.length = a := by
    have hL : L = a ++ (kcPat ++ (h ++ kcClose)) := by
      simp [hLdef, List.append_assoc]
    rw [hL, List.take_left]
  have hdrop : L.drop (a.length + kcPat.length + h.length + kcClose.length) = [] := by
    rw [← hlen]
    exact List.drop_length L
  unfold rewriteLine
  simp only [hfirst, hlast, htake]
  rw [show a.length + kcPat.length + h.length + kcClose.length
      = a.length + kcPat.length + h.length + kcClose.length from rfl] at hdrop
  simp only [hdrop]
  simp [List.append_assoc]

/-- Sample admin kubeconfig as fetched from the control plane. -/
def sampleKubeconfig : List Char :=
  chars ("apiVersion: v1\nclusters:\n- cluster:\n    server: https://internal-host:6443\n" ++
    "  name: kind\ncontexts: []")

/-- The expected rewrite of `sampleKubeconfig` for public IP 203.0.113.5. -/
def sampleKubeconfigOut : List Char :=
  chars ("apiVersion: v1\nclusters:\n- cluster:\n    server: https://203.0.113.5:6443\n" ++
    "  name: kind\ncontexts: []")

/-- C6: the `downloadKubeConfig` rewrite works line by line (matches cannot
span lines since `.` excludes newlines): a line admitting no match start is
left byte-identical, and a line of the form
`<head> server: https://<host>:6443` — with no earlier match start in the
head and the final `:6443` the only closing literal after the host — becomes
`<head> server: https://<public-ip>:6443`; in particular the sample
kubeconfig with `server: https://internal-host:6443` rewritten with
203.0.113.5 yields exactly `server: https://203.0.113.5:6443` with every
other line unchanged. -/
theorem C6_kubeconfig_rewrite :
    (∀ (ip : List Char) (ls : List (List Char)), ls ≠ [] →
      (∀ l ∈ ls, '\n' ∉ l) →
      kubeconfigRewrite ip (joinLines ls) = joinLines (ls.map (rewriteLine ip))) ∧
    (∀ (ip l : List Char), (∀ i, i ≤ l.length → kcMatchStart l i = false) →
      rewriteLine ip l = l) ∧
    (∀ (ip a h : List Char),
      (∀ i, i < a.length → subAt kcPat (a ++ kcPat ++ h ++ kcClose) i = false) →
      (∀ j, j ≤ (a ++ kcPat ++ h ++ kcClose).length →
        a.length + kcPat.length ≤ j →
        subAt kcClose (a ++ kcPat ++ h ++ kcClose) j = true →
        j = a.length + kcPat.length + h.length) →
      rewriteLine ip (a ++ kcPat ++ h ++ kcClose) = a ++ kcPat ++ ip ++ kcClose) ∧
    kubeconfigRewrite (chars "203.0.113.5") sampleKubeconfig = sampleKubeconfigOut := by
  refine ⟨?_, ?_, ?_, ?_⟩
  · intro ip ls hne h
    unfold kubeconfigRewrite
    rw [splitLines_joinLines ls hne h]
  · intro ip l h
    exact rewriteLine_id_of_no_match ip l h
  · intro ip a h Hpat Hclose
    exact rewriteLine_match ip a h Hpat Hclose
  · decide

/-- Witness for `C6_kubeconfig_rewrite` at concrete lines: the unchanged
non-matching line, the rewritten matching line, and the two closed parts. -/
theorem C6_kubeconfig_rewrite_witness :
    kubeconfigRewrite (chars "1.2.3.4") (joinLines [chars "a: b", chars "c: d"]) =
      joinLines ([chars "a: b", chars "c: d"].map (rewriteLine (chars "1.2.3.4"))) ∧
    rewriteLine (chars "1.2.3.4") (chars "  name: kind") = chars "  name: kind" ∧
    rewriteLine (chars "203.0.113.5")
        (chars "    " ++ kcPat ++ chars "internal-host" ++ kcClose) =
      chars "    " ++ kcPat ++ chars "203.0.113.5" ++ kcClose ∧
    kubeconfigRewrite (chars "203.0.113.5") sampleKubeconfig = sampleKubeconfigOut :=
  ⟨C6_kubeconfig_rewrite.1 (chars "1.2.3.4") [chars "a: b", chars "c: d"]
      (by simp) (by decide),
   C6_kubeconfig_rewrite.2.1 (chars "1.2.3.4") (chars "  name: kind") (by decide),
   C6_kubeconfig_rewrite.2.2.1 (chars "203.0.113.5") (chars "    ")
      (chars "internal-host") (by decide) (by decide),
   C6_kubeconfig_rewrite.2.2.2⟩

/-! ## User-data composition: `AWSRunner.getUserData` (runner.go)

`getUserData` loads the template named by the user-data file (embedded
`ubuntu2404.yaml` by default; `al2023.sh` for the al2023/al2 images), then
applies a fixed chain of `strings.ReplaceAll` calls over the whole document.
The sub-documents (configure.sh, kubeadm-init/join YAML, run-kubeadm.sh,
run-post-install.sh, the systemd unit files) are fetched, have their own
substitutions applied, and are gzip-compressed and base64-encoded *before*
being spliced in — their final spliced forms are opaque base64 strings
(alphabet `A-Za-z0-9+/=`, never containing a brace) and are supplied as
environment fields here.

The document is modelled as its list of lines and each `ReplaceAll` pass
acts per line (`userDataLine` is the whole chain on one line): this equals
`strings.ReplaceAll` on the newline-joined document, because every pattern
in the chain is newline-free — an occurrence never covers a newline, so the
left-to-right non-overlapping scan processes the segments between newlines
independently (the newlines themselves are copied verbatim). -/

/-- The lines of the embedded default user-data template `ubuntu2404.yaml` (config/), byte for byte. -/
def ubuntu2404Template : List (List Char) :=
  [chars "#cloud-config",
   chars "system_info:",
   chars "  default_user:",
   chars "    name: ec2-user",
   chars "    groups: root",
   chars "package_upgrade: true",
   chars "package_update: true",
   chars "packages:",
   chars "    - nfs-common",
   chars "    - socat",
   chars "    - conntrack",
   chars "    - net-tools",
   chars "    - jq",
   chars "    - python3",
   chars "write_files:",
   chars "  - path: /tmp/bootstrap/extra-fetches.yaml",
   chars "    content: |",
   chars "      containerd-env: https://raw.githubusercontent.com/kubernetes/test-infra/master/jobs/e2e_node/containerd/containerd-main/env",
   chars "  - path: /etc/systemd/system/containerd-installation.service",
   chars "    permissions: \x270644\x27",
   chars "    owner: root",
   chars "    encoding: gzip+base64",
   chars "    content: \x7b\x7bCONTAINERD_INSTALL_SERVICE\x7d\x7d",
   chars "  - path: /etc/systemd/system/runtime.slice",
   chars "    permissions: 0644",
   chars "    owner: root",
   chars "    content: |",
   chars "      [Unit]",
   chars "      Before=slices.target",
   chars "  - path: /etc/systemd/system/containerd.service",
   chars "    permissions: \x270644\x27",
   chars "    owner: root",
   chars "    encoding: gzip+base64",
   chars "    content: \x7b\x7bCONTAINERD_SERVICE\x7d\x7d",
   chars "  - path: /etc/systemd/system/containerd.target",
   chars "    permissions: \x270644\x27",
   chars "    owner: root",
   chars "    encoding: gzip+base64",
   chars "    content: \x7b\x7bCONTAINERD_TARGET\x7d\x7d",
   chars "  - path: /etc/sysctl.d/k8s.conf",
   chars "    permissions: 0644",
   chars "    owner: root",
   chars "    content: |",
   chars "      net.ipv4.ip_forward=1",
   chars "      net.bridge.bridge-nf-call-ip6tables = 1",
   chars "      net.bridge.bridge-nf-call-iptables = 1",
   chars "  - path: /etc/kubernetes/credential-provider.yaml",
   chars "    permissions: \x270644\x27",
   chars "    owner: root",
   chars "    encoding: gzip+base64",
   chars "    content: \x7b\x7bCREDENTIAL_PROVIDER_YAML\x7d\x7d",
   chars "  - path: /etc/systemd/system/kubelet.service.d/10-kubeadm.conf",
   chars "    permissions: \x270644\x27",
   chars "    owner: root",
   chars "    encoding: gzip+base64",
   chars "    content: \x7b\x7bKUBEADM_CONF\x7d\x7d",
   chars "  - path: /usr/lib/systemd/system/kubelet.service",
   chars "    permissions: \x270644\x27",
   chars "    owner: root",
   chars "    encoding: gzip+base64",
   chars "    content: \x7b\x7bKUBELET_SERVICE\x7d\x7d",
   chars "  - path: /usr/local/bin/run-kubeadm.sh",
   chars "    permissions: \x270755\x27",
   chars "    owner: root",
   chars "    encoding: gzip+base64",
   chars "    content: \x7b\x7bRUN_KUBEADM_SH\x7d\x7d",
   chars "  - path: /usr/local/bin/run-post-install.sh",
   chars "    permissions: \x270755\x27",
   chars "    owner: root",
   chars "    content: \x7b\x7bRUN_POST_INSTALL_SH\x7d\x7d",
   chars "    encoding: gzip+base64",
   chars "  - path: /home/containerd/configure.sh",
   chars "    encoding: gzip+base64",
   chars "    content: \x7b\x7bCONFIGURE_SH\x7d\x7d",
   chars "    owner: root",
   chars "    permissions: \x270544\x27",
   chars "  - path: /etc/kubernetes/kubeadm-init.yaml",
   chars "    encoding: gzip+base64",
   chars "    content: \x7b\x7bKUBEADM_INIT_YAML\x7d\x7d",
   chars "    owner: root",
   chars "    permissions: \x270544\x27",
   chars "  - path: /etc/kubernetes/kubeadm-join.yaml",
   chars "    encoding: gzip+base64",
   chars "    content: \x7b\x7bKUBEADM_JOIN_YAML\x7d\x7d",
   chars "    owner: root",
   chars "    permissions: \x270544\x27",
   chars "runcmd:",
   chars "  - snap install aws-cli --classic",
   chars "  - ufw disable || echo \"ufw not installed\"",
   chars "  - systemctl stop apparmor",
   chars "  - systemctl disable apparmor",
   chars "  - iptables -F && iptables -X  && iptables -t nat -F  && iptables -t nat -X && iptables -t mangle -F  && iptables -t mangle -X  && iptables -P INPUT ACCEPT  && iptables -P FORWARD ACCEPT -w 5 && iptables -P OUTPUT ACCEPT -w 5",
   chars "  - \"TOKEN=$(curl --request PUT \x27http://169.254.169.254/latest/api/token\x27 --header \x27X-aws-ec2-metadata-token-ttl-seconds: 3600\x27 -s) && echo \\\"$(curl -s -f -m 1 http://169.254.169.254/latest/meta-data/local-ipv4 --header \x27X-aws-ec2-metadata-token: \x27$TOKEN) $(curl -s -f -m 1 http://169.254.169.254/latest/meta-data/instance-id/ --header \x27X-aws-ec2-metadata-token: \x27$TOKEN)\\\" | sudo tee -a /etc/hosts\"",
   chars "  - \"sed -i \\\"s/^.*ReadEtcHosts.*/ReadEtcHosts=no/\\\" /etc/systemd/resolved.conf\"",
   chars "  - \"sed -i \\\"s/^MACAddressPolicy=.*/MACAddressPolicy=none/\\\" /usr/lib/systemd/network/99-default.link\"",
   chars "  - systemctl restart systemd-resolved",
   chars "  - rm /usr/lib/systemd/logind.conf.d/unattended-upgrades-logind-maxdelay.conf",
   chars "  - systemctl restart systemd-logind",
   chars "  - systemctl daemon-reload",
   chars "  - systemctl enable containerd-installation.service",
   chars "  - systemctl enable containerd.service",
   chars "  - systemctl enable containerd.target",
   chars "  - systemctl start containerd.target",
   chars "  - mkdir -p /etc/kubernetes/manifests",
   chars "  - KUBEADM_CONTROL_PLANE=\"\x7b\x7bKUBEADM_CONTROL_PLANE\x7d\x7d\" KUBEADM_CONTROL_PLANE_IP=\"\x7b\x7bKUBEADM_CONTROL_PLANE_IP\x7d\x7d\" /usr/local/bin/run-kubeadm.sh",
   chars "  - KUBEADM_CONTROL_PLANE=\"\x7b\x7bKUBEADM_CONTROL_PLANE\x7d\x7d\" /usr/local/bin/run-post-install.sh"]

/-- The lines of the embedded user-data template `al2023.sh` (config/), selected by `--image al2023` or `--image al2`, byte for byte. -/
def al2023Template : List (List Char) :=
  [chars "#!/bin/bash",
   chars "",
   chars "set -o xtrace",
   chars "set -xeuo pipefail",
   chars "",
   chars "# one of the ci job tests needs git",
   chars "yum install git -y",
   chars "",
   chars "# Start with a clean slate",
   chars "# Note that the \x60iptables -P FORWARD ACCEPT\x60 piece is load bearing! https://github.com/search?q=repo%3Aawslabs%2Famazon-eks-ami+%22iptables+-P%22&type=code",
   chars "iptables -F && iptables -X  && iptables -t nat -F  && iptables -t nat -X && iptables -t mangle -F  && iptables -t mangle -X  && iptables -P INPUT ACCEPT  && iptables -P FORWARD ACCEPT -w 5 && iptables -P OUTPUT ACCEPT -w 5",
   chars "",
   chars "echo \"Add rules for ip masquerade\"",
   chars "iptables -w -t nat -N IP-MASQ",
   chars "iptables -w -t nat -A POSTROUTING -m comment --comment \"ip-masq: ensure nat POSTROUTING directs all non-LOCAL destination traffic to our custom IP-MASQ chain\" -m addrtype ! --dst-type LOCAL -j IP-MASQ",
   chars "iptables -w -t nat -A IP-MASQ -d 169.254.0.0/16 -m comment --comment \"ip-masq: local traffic is not subject to MASQUERADE\" -j RETURN",
   chars "iptables -w -t nat -A IP-MASQ -d 10.0.0.0/8 -m comment --comment \"ip-masq: RFC 1918 reserved range is not subject to MASQUERADE\" -j RETURN",
   chars "iptables -w -t nat -A IP-MASQ -d 172.16.0.0/12 -m comment --comment \"ip-masq: RFC 1918 reserved range is not subject to MASQUERADE\" -j RETURN",
   chars "iptables -w -t nat -A IP-MASQ -d 192.168.0.0/16 -m comment --comment \"ip-masq: RFC 1918 reserved range is not subject to MASQUERADE\" -j RETURN",
   chars "iptables -w -t nat -A IP-MASQ -d 240.0.0.0/4 -m comment --comment \"ip-masq: RFC 5735 reserved range is not subject to MASQUERADE\" -j RETURN",
   chars "iptables -w -t nat -A IP-MASQ -d 192.0.2.0/24 -m comment --comment \"ip-masq: RFC 5737 reserved range is not subject to MASQUERADE\" -j RETURN",
   chars "iptables -w -t nat -A IP-MASQ -d 198.51.100.0/24 -m comment --comment \"ip-masq: RFC 5737 reserved range is not subject to MASQUERADE\" -j RETURN",
   chars "iptables -w -t nat -A IP-MASQ -d 203.0.113.0/24 -m comment --comment \"ip-masq: RFC 5737 reserved range is not subject to MASQUERADE\" -j RETURN",
   chars "iptables -w -t nat -A IP-MASQ -d 100.64.0.0/10 -m comment --comment \"ip-masq: RFC 6598 reserved range is not subject to MASQUERADE\" -j RETURN",
   chars "iptables -w -t nat -A IP-MASQ -d 198.18.0.0/15 -m comment --comment \"ip-masq: RFC 6815 reserved range is not subject to MASQUERADE\" -j RETURN",
   chars "iptables -w -t nat -A IP-MASQ -d 192.0.0.0/24 -m comment --comment \"ip-masq: RFC 6890 reserved range is not subject to MASQUERADE\" -j RETURN",
   chars "iptables -w -t nat -A IP-MASQ -d 192.88.99.0/24 -m comment --comment \"ip-masq: RFC 7526 reserved range is not subject to MASQUERADE\" -j RETURN",
   chars "iptables -w -t nat -A IP-MASQ -m comment --comment \"ip-masq: outbound traffic is subject to MASQUERADE (must be last in chain)\" -j MASQUERADE",
   chars "",
   chars "if [ \"$(uname -m)\" = \"arm64\" ] || [ \"$(uname -m)\" = \"aarch64\" ]; then",
   chars "  ARCH=arm64",
   chars "else",
   chars "  ARCH=amd64",
   chars "fi",
   chars "",
   chars "os=$( . /etc/os-release ; echo \"$\x7bID\x7d$\x7bVERSION_ID\x7d\" )",
   chars "if [ \"$os\" == \"amzn2023\" ]; then",
   chars "",
   chars "  # Fix issues with networking from pods",
   chars "  sed -i \"s/^MACAddressPolicy=.*/MACAddressPolicy=none/\" /usr/lib/systemd/network/99-default.link",
   chars "  systemctl restart systemd-resolved",
   chars "",
   chars "  # Remove duplicate lines in /etc/resolv.conf",
   chars "  awk -i inplace \x27!seen[$0]++\x27  /etc/resolv.conf || true",
   chars "fi",
   chars "",
   chars "mkdir -p /etc/kubernetes/",
   chars "cat << EOF > /etc/kubernetes/kubeadm-join.yaml",
   chars "apiVersion: kubeadm.k8s.io/v1beta3",
   chars "kind: JoinConfiguration",
   chars "discovery:",
   chars "  bootstrapToken:",
   chars "    apiServerEndpoint: \x7b\x7bKUBEADM_CONTROL_PLANE_IP\x7d\x7d:6443",
   chars "    token: \x7b\x7bKUBEADM_TOKEN\x7d\x7d",
   chars "    unsafeSkipCAVerification: true",
   chars "nodeRegistration:",
   chars "  criSocket: unix:///run/containerd/containerd.sock",
   chars "  name: \x7b\x7bHOSTNAME_OVERRIDE\x7d\x7d",
   chars "  kubeletExtraArgs:",
   chars "    feature-gates: \x7b\x7bFEATURE_GATES\x7d\x7d",
   chars "    cloud-provider: \x7b\x7bEXTERNAL_CLOUD_PROVIDER\x7d\x7d",
   chars "    provider-id: \x7b\x7bPROVIDER_ID\x7d\x7d",
   chars "    node-ip: \x7b\x7bNODE_IP\x7d\x7d",
   chars "    hostname-override: \x7b\x7bHOSTNAME_OVERRIDE\x7d\x7d",
   chars "    image-credential-provider-bin-dir: /etc/eks/image-credential-provider/",
   chars "    image-credential-provider-config: /etc/eks/image-credential-provider/config.json",
   chars "    resolv-conf: /etc/resolv.conf",
   chars "EOF",
   chars "",
   chars "cat <<EOF > /etc/eks/image-credential-provider/config.json",
   chars "\x7b",
   chars "  \"apiVersion\": \"kubelet.config.k8s.io/v1\",",
   chars "  \"kind\": \"CredentialProviderConfig\",",
   chars "  \"providers\": [",
   chars "    \x7b",
   chars "      \"name\": \"ecr-credential-provider\",",
   chars "      \"matchImages\": [",
   chars "        \"*.dkr.ecr.*.amazonaws.com\",",
   chars "        \"*.dkr.ecr.*.amazonaws.com.cn\",",
   chars "        \"*.dkr.ecr-fips.*.amazonaws.com\",",
   chars "        \"*.dkr.ecr.*.c2s.ic.gov\",",
   chars "        \"*.dkr.ecr.*.sc2s.sgov.gov\"",
   chars "      ],",
   chars "      \"defaultCacheDuration\": \"12h\",",
   chars "      \"apiVersion\": \"credentialprovider.kubelet.k8s.io/v1\"",
   chars "    \x7d",
   chars "  ]",
   chars "\x7d",
   chars "EOF",
   chars "",
   chars "TOKEN=$(curl --request PUT \"http://169.254.169.254/latest/api/token\" --header \"X-aws-ec2-metadata-token-ttl-seconds: 3600\" -s)",
   chars "META_URL=http://169.254.169.254/latest/meta-data",
   chars "AVAILABILITY_ZONE=$(curl -s $META_URL/placement/availability-zone --header \"X-aws-ec2-metadata-token: $TOKEN\")",
   chars "INSTANCE_ID=$(curl -s $META_URL/instance-id --header \"X-aws-ec2-metadata-token: $TOKEN\")",
   chars "PROVIDER_ID=\"aws:///$AVAILABILITY_ZONE/$INSTANCE_ID\"",
   chars "PRIVATE_DNS_NAME=$(curl -s $META_URL/hostname --header \"X-aws-ec2-metadata-token: $TOKEN\")",
   chars "NODE_IP=$(curl -s $META_URL/local-ipv4 --header \"X-aws-ec2-metadata-token: $TOKEN\")",
   chars "",
   chars "sed -i \"s|\x7b\x7bPROVIDER_ID\x7d\x7d|$PROVIDER_ID|g\" /etc/kubernetes/kubeadm-join.yaml",
   chars "sed -i \"s|\x7b\x7bHOSTNAME_OVERRIDE\x7d\x7d|$PRIVATE_DNS_NAME|g\" /etc/kubernetes/kubeadm-join.yaml",
   chars "sed -i \"s|\x7b\x7bNODE_IP\x7d\x7d|$NODE_IP|g\" /etc/kubernetes/kubeadm-join.yaml",
   chars "",
   chars "# Ensure references to the instance id are resolved properly",
   chars "echo \"$(curl -s -f -m 1 --header \"X-aws-ec2-metadata-token: $TOKEN\" $META_URL/local-ipv4) $(curl -s -f -m 1 --header \"X-aws-ec2-metadata-token: $TOKEN\" $META_URL/instance-id/)\" | sudo tee -a /etc/hosts",
   chars "",
   chars "VERSION=\"v1.28.0\"",
   chars "curl -sSL --fail --retry 5 https://storage.googleapis.com/k8s-artifacts-cri-tools/release/$VERSION/crictl-$VERSION-linux-$ARCH.tar.gz | sudo tar -xvzf - -C /usr/local/bin",
   chars "",
   chars "RELEASE_VERSION=\"v0.16.4\"",
   chars "curl -sSL \"https://raw.githubusercontent.com/kubernetes/release/$\x7bRELEASE_VERSION\x7d/cmd/krel/templates/latest/kubelet/kubelet.service\" | sed \"s:/usr/bin:/bin:g\" | sudo tee /etc/systemd/system/kubelet.service",
   chars "sudo mkdir -p /etc/systemd/system/kubelet.service.d",
   chars "curl -sSL \"https://raw.githubusercontent.com/kubernetes/release/$\x7bRELEASE_VERSION\x7d/cmd/krel/templates/latest/kubeadm/10-kubeadm.conf\" | sed \"s:/usr/bin:/bin:g\" | sudo tee /etc/systemd/system/kubelet.service.d/10-kubeadm.conf",
   chars "systemctl enable --now kubelet",
   chars "",
   chars "# shellcheck disable=SC2050",
   chars "if [[ \"\x7b\x7bSTAGING_BUCKET\x7d\x7d\" =~ ^s3.*  ]]; then",
   chars "  aws s3 cp \"\x7b\x7bSTAGING_BUCKET\x7d\x7d/\x7b\x7bSTAGING_VERSION\x7d\x7d/kubernetes-server-linux-$ARCH.tar.gz\" \"kubernetes-server-linux-$ARCH.tar.gz\"",
   chars "elif [[ \"\x7b\x7bSTAGING_BUCKET\x7d\x7d\" =~ ^https.*  ]]; then",
   chars "  curl -sSLo kubernetes-server-linux-$ARCH.tar.gz --fail --retry 5 \"\x7b\x7bSTAGING_BUCKET\x7d\x7d/\x7b\x7bSTAGING_VERSION\x7d\x7d/kubernetes-server-linux-$ARCH.tar.gz\"",
   chars "else",
   chars "  aws s3 cp \"s3://\x7b\x7bSTAGING_BUCKET\x7d\x7d/\x7b\x7bSTAGING_VERSION\x7d\x7d/kubernetes-server-linux-$ARCH.tar.gz\" \"kubernetes-server-linux-$ARCH.tar.gz\"",
   chars "fi",
   chars "",
   chars "tar -xvzf kubernetes-server-linux-$ARCH.tar.gz",
   chars "cp ./kubernetes/server/bin/* /usr/local/bin/",
   chars "",
   chars "if command -v dnf; then",
   chars "  dnf reinstall runc containerd -y --allowerasing",
   chars "else",
   chars "  yum reinstall runc containerd -y",
   chars "fi",
   chars "",
   chars "systemctl stop containerd",
   chars "rm -f /etc/containerd/config.toml",
   chars "sed -i \x27s|LimitNOFILE=.*|LimitNOFILE=1048576|\x27 /usr/lib/systemd/system/containerd.service",
   chars "",
   chars "if [[ -f \"/etc/eks/containerd/containerd-config.toml\" ]]; then",
   chars "  cp /etc/eks/containerd/containerd-config.toml /etc/containerd/config.toml",
   chars "else",
   chars "cat <<EOF > /etc/containerd/config.toml",
   chars "version = 2",
   chars "root = \"/var/lib/containerd\"",
   chars "state = \"/run/containerd\"",
   chars "# Users can use the following import directory to add additional",
   chars "# configuration to containerd. The imports do not behave exactly like overrides.",
   chars "# see: https://github.com/containerd/containerd/blob/main/docs/man/containerd-config.toml.5.md#format",
   chars "imports = [\"/etc/containerd/config.d/*.toml\"]",
   chars "",
   chars "[grpc]",
   chars "address = \"/run/containerd/containerd.sock\"",
   chars "",
   chars "[plugins.\"io.containerd.grpc.v1.cri\".containerd]",
   chars "default_runtime_name = \"runc\"",
   chars "discard_unpacked_layers = true",
   chars "",
   chars "[plugins.\"io.containerd.grpc.v1.cri\"]",
   chars "sandbox_image = \"registry.k8s.io/pause:3.8\"",
   chars "",
   chars "[plugins.\"io.containerd.grpc.v1.cri\".registry]",
   chars "config_path = \"/etc/containerd/certs.d:/etc/docker/certs.d\"",
   chars "",
   chars "[plugins.\"io.containerd.grpc.v1.cri\".containerd.runtimes.runc]",
   chars "runtime_type = \"io.containerd.runc.v2\"",
   chars "",
   chars "[plugins.\"io.containerd.grpc.v1.cri\".containerd.runtimes.runc.options]",
   chars "SystemdCgroup = true",
   chars "",
   chars "[plugins.\"io.containerd.grpc.v1.cri\".cni]",
   chars "bin_dir = \"/opt/cni/bin\"",
   chars "conf_dir = \"/etc/cni/net.d\"",
   chars "EOF",
   chars "",
   chars "# one of the CRI tests needs an extra \"test-handler\" so append that at the end",
   chars "cat <<EOF >> /etc/containerd/config.toml",
   chars "# Setup a runtime with the magic name (\"test-handler\") used for Kubernetes",
   chars "# runtime class tests ...",
   chars "[plugins.\"io.containerd.grpc.v1.cri\".containerd.runtimes.test-handler]",
   chars "  runtime_type = \"io.containerd.runc.v2\"",
   chars "EOF",
   chars "fi",
   chars "",
   chars "# fix up sandbox_image if not set properly",
   chars "sed -i \"s/SANDBOX_IMAGE/registry.k8s.io\\/pause:3.8/\" /etc/containerd/config.toml",
   chars "",
   chars "# enable nvidia driver if present",
   chars "if command -v nvidia-ctk; then",
   chars "  nvidia-ctk runtime configure --runtime=containerd",
   chars "  sed -i \x27s/default_runtime_name = .*/default_runtime_name = \"nvidia\"/\x27 /etc/containerd/config.toml",
   chars "fi",
   chars "",
   chars "systemctl start containerd",
   chars "/usr/bin/containerd --version",
   chars "/usr/sbin/runc --version",
   chars "",
   chars "# shellcheck disable=SC2038",
   chars "find ./kubernetes/server/bin -name \"*.tar\" -print | xargs -L 1 ctr -n k8s.io images import",
   chars "# shellcheck disable=SC2016",
   chars "ctr -n k8s.io images ls -q | grep -e $ARCH | xargs -L 1 -I \x27\x7b\x7d\x27 /bin/bash -c \x27ctr -n k8s.io images tag \"\x7b\x7d\" \"$(echo \"\x7b\x7d\" | sed s/-\x27$ARCH\x27:/:/)\"\x27",
   chars "",
   chars "# shellcheck disable=SC2155",
   chars "export PATH=$PATH:/usr/local/bin",
   chars "",
   chars "kubeadm join \\",
   chars "   --ignore-preflight-errors=FileContent--proc-sys-net-bridge-bridge-nf-call-iptables \\",
   chars "   --v 10 \\",
   chars "   --config /etc/kubernetes/kubeadm-join.yaml"]

/-- One `strings.ReplaceAll` pass over the document, line by line. -/
def replaceAllLines (ls : List (List Char)) (pat rep : List Char) :
    List (List Char) :=
  ls.map (fun l => replaceAll l pat rep)

/-- Inputs of one `getUserData` call: flag values and the spliced forms of
the fetched sub-documents. -/
structure UserDataEnv where
  template : List (List Char)
  stageLocation : List Char
  version : List Char
  token : List Char
  certificateKey : List Char
  clusterID : List Char
  featureGates : List Char
  externalCloudProvider : Bool
  externalCloudProviderImage : List Char
  externalLoadBalancer : Bool
  devicePluginNvidia : Bool
  /-- gzip+base64 spliced sub-documents. -/
  configureScript : List Char
  kubeadmInitYaml : List Char
  kubeadmJoinYaml : List Char
  runKubeadmSH : List Char
  runPostInstallSH : List Char
  /-- raw `FetchUbuntuFile` unit files. -/
  containerdInstallService : List Char
  containerdService : List Char
  containerdTarget : List Char
  kubeadmConf : List Char
  kubeletService : List Char
  credentialProviderYaml : List Char

/-- The substitution chain of `AWSRunner.getUserData`, in source order,
acting on one line of the document. -/
def userDataLine (env : UserDataEnv) (controlPlane : Bool) (l : List Char) :
    List Char :=
  let u1 := replaceAll l (tok "STAGING_BUCKET") env.stageLocation
  let u2 := replaceAll u1 (tok "STAGING_VERSION") env.version
  let u3 := replaceAll u2 (tok "KUBEADM_TOKEN") env.token
  let u4 := replaceAll u3 (tok "KUBEADM_CERTIFICATE_KEY") env.certificateKey
  let u5 := replaceAll u4 (tok "KUBEADM_CLUSTER_ID") env.clusterID
  let u6 := replaceAll u5 (tok "CONFIGURE_SH") env.configureScript
  let provider := if env.externalCloudProvider then chars "external" else chars ""
  let u7 := replaceAll u6 (tok "KUBEADM_INIT_YAML") env.kubeadmInitYaml
  let u8 := replaceAll u7 (tok "KUBEADM_JOIN_YAML") env.kubeadmJoinYaml
  let u9 := replaceAll u8 (tok "RUN_KUBEADM_SH") env.runKubeadmSH
  let u10 := replaceAll u9 (tok "CONTAINERD_INSTALL_SERVICE") env.containerdInstallService
  let u11 := replaceAll u10 (tok "CONTAINERD_SERVICE") env.containerdService
  let u12 := replaceAll u11 (tok "CONTAINERD_TARGET") env.containerdTarget
  let u13 := replaceAll u12 (tok "KUBEADM_CONF") env.kubeadmConf
  let u14 := replaceAll u13 (tok "KUBELET_SERVICE") env.kubeletService
  let u15 := replaceAll u14 (tok "CREDENTIAL_PROVIDER_YAML") env.credentialProviderYaml
  let u16 := replaceAll u15 (tok "FEATURE_GATES") env.featureGates
  let u17 := replaceAll u16 (tok "EXTERNAL_CLOUD_PROVIDER") provider
  let u18 := replaceAll u17 (tok "EXTERNAL_CLOUD_PROVIDER_IMAGE") env.externalCloudProviderImage
  let u19 := replaceAll u18 (tok "EXTERNAL_LOAD_BALANCER")
    (if env.externalLoadBalancer then chars "true" else chars "false")
  let u20 := replaceAll u19 (tok "ENABLE_NVIDIA_DEVICE_PLUGIN")
    (if env.devicePluginNvidia then chars "true" else chars "false")
  let u21 := replaceAll u20 (tok "RUN_POST_INSTALL_SH") env.runPostInstallSH
  replaceAll u21 (tok "KUBEADM_CONTROL_PLANE")
    (if controlPlane then chars "true" else chars "false")

/-- `AWSRunner.getUserData`: the substitution chain over the whole
document. -/
def getUserData (env : UserDataEnv) (controlPlane : Bool) : List (List Char) :=
  env.template.map (userDataLine env controlPlane)

/-- The launch-time substitution `utils.LaunchNewInstance` applies to the
composed payload (line view of its `strings.ReplaceAll` of the
control-plane-IP token). -/
def launchSubstitute (ls : List (List Char)) (controlPlaneIP : List Char) :
    List (List Char) :=
  replaceAllLines ls tokControlPlaneIP controlPlaneIP

/-! ## Claim C5: no unresolved placeholders in the launched payload -/

set_option maxRecDepth 4000

/-- A line without an opening brace (so certainly without a placeholder
token). -/
def braceFree (l : List Char) : Bool := l.all (fun c => !(c == '\x7b'))

/-- Every placeholder token starts with two opening braces. -/
theorem tok_eq (s : String) :
    tok s = '\x7b' :: ('\x7b' :: (s.data ++ ['\x7d', '\x7d'])) := by
  simp [tok, chars, String.data_append]

/-- A pattern starting with an opening brace never matches inside a
brace-free line, so the scan copies the line unchanged. -/
theorem replaceAllFuel_braceFree_id (ps rep : List Char) :
    ∀ (fuel : Nat) (l : List Char), braceFree l = true →
      replaceAllFuel ('\x7b' :: ps) rep fuel l = l := by
  intro fuel
  induction fuel with
  | zero => intro l _; cases l <;> rfl
  | succ n ih =>
    intro l hl
    cases l with
    | nil => rfl
    | cons c rest =>
      have hparts : (c = '\x7b' → False) ∧ braceFree rest = true := by
        simp only [braceFree, List.all_cons, Bool.and_eq_true, Bool.not_eq_eq_eq_not,
          Bool.not_true, beq_eq_false_iff_ne, ne_eq] at hl
        exact ⟨hl.1, hl.2⟩
      have hpre : (('\x7b' :: ps).isPrefixOf (c :: rest)) = false := by
        have hne : ('\x7b' == c) = false := by
          have : ¬('\x7b' = c) := fun h => hparts.1 h.symm
          simp [this]
        simp [List.isPrefixOf, hne]
      simp only [replaceAllFuel, hpre, Bool.false_eq_true, if_false]
      rw [ih rest hparts.2]

/-- `strings.ReplaceAll` with a placeholder-token pattern leaves a
brace-free line unchanged. -/
theorem replaceAll_tok_id (l rep : List Char) (s : String)
    (hl : braceFree l = true) : replaceAll l (tok s) rep = l := by
  rw [replaceAll.eq_def, tok_eq]
  exact replaceAllFuel_braceFree_id _ _ _ _ hl

/-- The whole `getUserData` chain leaves a brace-free line unchanged. -/
theorem userDataLine_id (env : UserDataEnv) (cp : Bool) (l : List Char)
    (hl : braceFree l = true) : userDataLine env cp l = l := by
  unfold userDataLine
  simp only [replaceAll_tok_id, hl]

/-- The launch-time substitution leaves a brace-free line unchanged. -/
theorem launchLine_id (l ip : List Char) (hl : braceFree l = true) :
    replaceAll l tokControlPlaneIP ip = l := by
  rw [show tokControlPlaneIP = tok "KUBEADM_CONTROL_PLANE_IP" from rfl]
  exact replaceAll_tok_id l ip _ hl

/-- An occurrence-free text has no match start at any position. -/
theorem subAt_false_of_not_contains (p : Char) (ps l : List Char) (i : Nat)
    (h : containsSub (p :: ps) l = false) : subAt (p :: ps) l i = false := by
  by_cases hi : i ≤ l.length
  · cases hsub : subAt (p :: ps) l i with
    | false => rfl
    | true =>
      exfalso
      have : containsSub (p :: ps) l = true := by
        unfold containsSub
        exact List.any_eq_true.mpr ⟨i, List.mem_range.mpr (by omega), hsub⟩
      rw [this] at h
      cases h
  · exact subAt_false_of_ge _ _ _ (by simp) (by omega)

/-- With no occurrence anywhere, the scan copies the text verbatim for any
fuel. -/
theorem replaceAllFuel_id_of_no_match (p : Char) (ps rep : List Char) :
    ∀ (fuel : Nat) (l : List Char),
      (∀ i, subAt (p :: ps) l i = false) →
      replaceAllFuel (p :: ps) rep fuel l = l := by
  intro fuel
  induction fuel with
  | zero => intro l _; cases l <;> rfl
  | succ n ih =>
    intro l h
    cases l with
    | nil => rfl
    | cons c rest =>
      have h0 : ((p :: ps).isPrefixOf (c :: rest)) = false := h 0
      simp only [replaceAllFuel, h0, Bool.false_eq_true, if_false]
      rw [ih rest (fun i => h (i + 1))]

/-- Go `strings.ReplaceAll` is the identity when the pattern occurs nowhere
in the text. -/
theorem replaceAll_id_of_not_contains (l : List Char) (p : Char)
    (ps rep : List Char) (h : containsSub (p :: ps) l = false) :
    replaceAll l (p :: ps) rep = l := by
  show replaceAllFuel (p :: ps) rep l.length l = l
  exact replaceAllFuel_id_of_no_match p ps rep l.length l
    (fun i => subAt_false_of_not_contains p ps l i h)

/-- The empty pattern occurs in every text. -/
theorem containsSub_nil_pat (l : List Char) : containsSub [] l = true := by
  unfold containsSub
  refine List.any_eq_true.mpr ⟨0, List.mem_range.mpr (by omega), ?_⟩
  cases l <;> rfl

/-- One `strings.ReplaceAll` pass: a pattern and its replacement value. -/
structure Sub where
  pat : List Char
  val : List Char

/-- A sequence of `strings.ReplaceAll` passes applied left to right. -/
def applySubs : List Char → List Sub → List Char
  | l, [] => l
  | l, sb :: rest => applySubs (replaceAll l sb.pat sb.val) rest

theorem applySubs_append (l : List Char) (xs ys : List Sub) :
    applySubs l (xs ++ ys) = applySubs (applySubs l xs) ys := by
  induction xs generalizing l with
  | nil => rfl
  | cons sb rest ih =>
    simp only [List.cons_append, applySubs]
    exact ih _

/-- None of the given patterns occurs in the line. -/
def noOccPats (pats : List (List Char)) (l : List Char) : Bool :=
  pats.all (fun p => !(containsSub p l))

/-- Passes whose patterns occur nowhere in the line leave it unchanged. -/
theorem applySubs_noOcc (l : List Char) (subs : List Sub)
    (h : noOccPats (subs.map Sub.pat) l = true) : applySubs l subs = l := by
  induction subs with
  | nil => rfl
  | cons sb rest ih =>
    simp only [noOccPats, List.map_cons, List.all_cons, Bool.and_eq_true] at h
    have hnc : containsSub sb.pat l = false := by
      have h1 := h.1
      cases hc : containsSub sb.pat l
      · rfl
      · rw [hc] at h1; cases h1
    have hid : replaceAll l sb.pat sb.val = l := by
      cases hpat : sb.pat with
      | nil =>
        rw [hpat, containsSub_nil_pat] at hnc
        cases hnc
      | cons p ps =>
        rw [hpat] at hnc
        exact replaceAll_id_of_not_contains l p ps _ hnc
    simp only [applySubs, hid]
    exact ih h.2

/-- The pattern starts with an opening brace (true of every placeholder
token). -/
def headIsBrace : List Char → Bool
  | [] => false
  | c :: _ => c == '\x7b'

/-- Passes whose patterns all start with an opening brace leave a brace-free
line unchanged. -/
theorem applySubs_braceFree_id (l : List Char) (subs : List Sub)
    (hl : braceFree l = true)
    (h : (subs.map Sub.pat).all headIsBrace = true) : applySubs l subs = l := by
  induction subs with
  | nil => rfl
  | cons sb rest ih =>
    simp only [List.map_cons, List.all_cons, Bool.and_eq_true] at h
    have hid : replaceAll l sb.pat sb.val = l := by
      cases hpat : sb.pat with
      | nil =>
        have h1 := h.1
        rw [hpat] at h1
        exact absurd h1 (by simp [headIsBrace])
      | cons c ps =>
        have hc : c = '\x7b' := by
          have h1 := h.1
          rw [hpat] at h1
          simpa [headIsBrace] using h1
        rw [hc]
        show replaceAllFuel ('\x7b' :: ps) sb.val l.length l = l
        exact replaceAllFuel_braceFree_id ps sb.val l.length l hl
    simp only [applySubs, hid]
    exact ih h.2

theorem braceFree_append (a b : List Char) :
    braceFree (a ++ b) = (braceFree a && braceFree b) := by
  simp [braceFree, List.all_append]

/-- The scan walks past a match-free prefix, replaces the single pattern
occurrence, and copies the occurrence-free suffix. -/
theorem replaceAllFuel_splice (p : Char) (ps v suf : List Char)
    (hsuf : containsSub (p :: ps) suf = false) :
    ∀ (pre : List Char) (fuel : Nat),
      (pre ++ (p :: ps) ++ suf).length ≤ fuel →
      (∀ i, i < pre.length → subAt (p :: ps) (pre ++ (p :: ps) ++ suf) i = false) →
      replaceAllFuel (p :: ps) v fuel (pre ++ (p :: ps) ++ suf) =
        pre ++ v ++ suf := by
  intro pre
  induction pre with
  | nil =>
    intro fuel hfuel _
    simp only [List.nil_append]
    cases fuel with
    | zero =>
      exfalso
      simp only [List.nil_append, List.length_append, List.length_cons] at hfuel
      omega
    | succ n =>
      show replaceAllFuel (p :: ps) v (n + 1) (p :: (ps ++ suf)) = v ++ suf
      have hpre : ((p :: ps).isPrefixOf (p :: (ps ++ suf))) = true :=
        isPrefixOf_append_self (p :: ps) suf
      simp only [replaceAllFuel, hpre, if_true]
      have hdrop : (p :: (ps ++ suf)).drop (p :: ps).length = suf := by
        simp only [List.length_cons, List.drop_succ_cons]
        exact List.drop_left ps suf
      rw [hdrop, replaceAllFuel_id_of_no_match p ps v n suf
        (fun i => subAt_false_of_not_contains p ps suf i hsuf)]
  | cons c pre' ih =>
    intro fuel hfuel hpre
    cases fuel with
    | zero =>
      exfalso
      simp only [List.length_append, List.length_cons] at hfuel
      omega
    | succ n =>
      show replaceAllFuel (p :: ps) v (n + 1)
          (c :: (pre' ++ (p :: ps) ++ suf)) = (c :: pre') ++ v ++ suf
      have h0 : ((p :: ps).isPrefixOf (c :: (pre' ++ (p :: ps) ++ suf))) = false :=
        hpre 0 (by simp)
      simp only [replaceAllFuel, h0, Bool.false_eq_true, if_false]
      rw [ih n (by simp only [List.length_append, List.length_cons] at hfuel ⊢; omega)
        (fun i hi => hpre (i + 1)
          (by simp only [List.length_cons]; omega))]
      rfl

/-- `strings.ReplaceAll` of a line holding exactly one pattern occurrence
splices the value in place of the pattern. -/
theorem replaceAll_splice (pre : List Char) (p : Char) (ps v suf : List Char)
    (hpre : ∀ i, i < pre.length →
      subAt (p :: ps) (pre ++ (p :: ps) ++ suf) i = false)
    (hsuf : containsSub (p :: ps) suf = false) :
    replaceAll (pre ++ (p :: ps) ++ suf) (p :: ps) v = pre ++ v ++ suf := by
  show replaceAllFuel (p :: ps) v (pre ++ (p :: ps) ++ suf).length
      (pre ++ (p :: ps) ++ suf) = pre ++ v ++ suf
  exact replaceAllFuel_splice p ps v suf hsuf pre _ (Nat.le_refl _) hpre

/-- Walking a token-bearing line through a pass list: the passes before the
token's own pass find no occurrence and the token's pass splices its value
in; the passes after the token's pass remain for the caller. -/
theorem applySubs_splice (l pre suf v : List Char) (p : Char) (ps : List Char)
    (subs1 subs2 : List Sub)
    (hl : l = pre ++ (p :: ps) ++ suf)
    (h1 : noOccPats (subs1.map Sub.pat) l = true)
    (hpre : ∀ i, i < pre.length → subAt (p :: ps) l i = false)
    (hsuf : containsSub (p :: ps) suf = false) :
    applySubs l (subs1 ++ Sub.mk (p :: ps) v :: subs2) =
      applySubs (pre ++ v ++ suf) subs2 := by
  rw [applySubs_append, applySubs_noOcc l subs1 h1]
  show applySubs (replaceAll l (p :: ps) v) subs2 =
    applySubs (pre ++ v ++ suf) subs2
  subst hl
  rw [replaceAll_splice pre p ps v suf hpre hsuf]

/-- The 22 `strings.ReplaceAll` passes of `getUserData`, as a pass list in
source order. -/
def userDataSubs (env : UserDataEnv) (controlPlane : Bool) : List Sub :=
  [Sub.mk (tok "STAGING_BUCKET") env.stageLocation,
   Sub.mk (tok "STAGING_VERSION") env.version,
   Sub.mk (tok "KUBEADM_TOKEN") env.token,
   Sub.mk (tok "KUBEADM_CERTIFICATE_KEY") env.certificateKey,
   Sub.mk (tok "KUBEADM_CLUSTER_ID") env.clusterID,
   Sub.mk (tok "CONFIGURE_SH") env.configureScript,
   Sub.mk (tok "KUBEADM_INIT_YAML") env.kubeadmInitYaml,
   Sub.mk (tok "KUBEADM_JOIN_YAML") env.kubeadmJoinYaml,
   Sub.mk (tok "RUN_KUBEADM_SH") env.runKubeadmSH,
   Sub.mk (tok "CONTAINERD_INSTALL_SERVICE") env.containerdInstallService,
   Sub.mk (tok "CONTAINERD_SERVICE") env.containerdService,
   Sub.mk (tok "CONTAINERD_TARGET") env.containerdTarget,
   Sub.mk (tok "KUBEADM_CONF") env.kubeadmConf,
   Sub.mk (tok "KUBELET_SERVICE") env.kubeletService,
   Sub.mk (tok "CREDENTIAL_PROVIDER_YAML") env.credentialProviderYaml,
   Sub.mk (tok "FEATURE_GATES") env.featureGates,
   Sub.mk (tok "EXTERNAL_CLOUD_PROVIDER")
     (if env.externalCloudProvider then chars "external" else chars ""),
   Sub.mk (tok "EXTERNAL_CLOUD_PROVIDER_IMAGE") env.externalCloudProviderImage,
   Sub.mk (tok "EXTERNAL_LOAD_BALANCER")
     (if env.externalLoadBalancer then chars "true" else chars "false"),
   Sub.mk (tok "ENABLE_NVIDIA_DEVICE_PLUGIN")
     (if env.devicePluginNvidia then chars "true" else chars "false"),
   Sub.mk (tok "RUN_POST_INSTALL_SH") env.runPostInstallSH,
   Sub.mk (tok "KUBEADM_CONTROL_PLANE")
     (if controlPlane then chars "true" else chars "false")]

/-- `userDataLine` is exactly the pass list applied in order. -/
theorem userDataLine_eq_applySubs (env : UserDataEnv) (cp : Bool)
    (l : List Char) :
    userDataLine env cp l = applySubs l (userDataSubs env cp) := rfl

/-- The 22 pass patterns of `getUserData`, in source order. -/
def udPats : List (List Char) :=
  [tok "STAGING_BUCKET", tok "STAGING_VERSION", tok "KUBEADM_TOKEN",
   tok "KUBEADM_CERTIFICATE_KEY", tok "KUBEADM_CLUSTER_ID", tok "CONFIGURE_SH",
   tok "KUBEADM_INIT_YAML", tok "KUBEADM_JOIN_YAML", tok "RUN_KUBEADM_SH",
   tok "CONTAINERD_INSTALL_SERVICE", tok "CONTAINERD_SERVICE",
   tok "CONTAINERD_TARGET", tok "KUBEADM_CONF", tok "KUBELET_SERVICE",
   tok "CREDENTIAL_PROVIDER_YAML", tok "FEATURE_GATES",
   tok "EXTERNAL_CLOUD_PROVIDER", tok "EXTERNAL_CLOUD_PROVIDER_IMAGE",
   tok "EXTERNAL_LOAD_BALANCER", tok "ENABLE_NVIDIA_DEVICE_PLUGIN",
   tok "RUN_POST_INSTALL_SH", tok "KUBEADM_CONTROL_PLANE"]

/-- The values spliced into the ubuntu template lines by `getUserData` are
brace-free (the gzip+base64 encoding of the fetched sub-documents never
produces a brace). -/
def spliceValuesBraceFree (env : UserDataEnv) : Bool :=
  braceFree env.configureScript && braceFree env.kubeadmInitYaml &&
  braceFree env.kubeadmJoinYaml && braceFree env.runKubeadmSH &&
  braceFree env.runPostInstallSH && braceFree env.containerdInstallService &&
  braceFree env.containerdService && braceFree env.containerdTarget &&
  braceFree env.kubeadmConf && braceFree env.kubeletService &&
  braceFree env.credentialProviderYaml

/-- The 13 lines of `ubuntu2404.yaml` that carry a placeholder (every other
line of the template is brace-free). -/
def ubuntuTokenLines : List (List Char) :=
  [chars "    content: \x7b\x7bCONTAINERD_INSTALL_SERVICE\x7d\x7d",
   chars "    content: \x7b\x7bCONTAINERD_SERVICE\x7d\x7d",
   chars "    content: \x7b\x7bCONTAINERD_TARGET\x7d\x7d",
   chars "    content: \x7b\x7bCREDENTIAL_PROVIDER_YAML\x7d\x7d",
   chars "    content: \x7b\x7bKUBEADM_CONF\x7d\x7d",
   chars "    content: \x7b\x7bKUBELET_SERVICE\x7d\x7d",
   chars "    content: \x7b\x7bRUN_KUBEADM_SH\x7d\x7d",
   chars "    content: \x7b\x7bRUN_POST_INSTALL_SH\x7d\x7d",
   chars "    content: \x7b\x7bCONFIGURE_SH\x7d\x7d",
   chars "    content: \x7b\x7bKUBEADM_INIT_YAML\x7d\x7d",
   chars "    content: \x7b\x7bKUBEADM_JOIN_YAML\x7d\x7d",
   chars "  - KUBEADM_CONTROL_PLANE=\"\x7b\x7bKUBEADM_CONTROL_PLANE\x7d\x7d\" KUBEADM_CONTROL_PLANE_IP=\"\x7b\x7bKUBEADM_CONTROL_PLANE_IP\x7d\x7d\" /usr/local/bin/run-kubeadm.sh",
   chars "  - KUBEADM_CONTROL_PLANE=\"\x7b\x7bKUBEADM_CONTROL_PLANE\x7d\x7d\" /usr/local/bin/run-post-install.sh"]

/-- Substitution inputs for the default `ubuntu2404.yaml` template;
`flags` switches external cloud provider / external load balancer / nvidia
device plugin together. -/
def ubuntuUserDataEnv (flags : Bool) : UserDataEnv :=
  { template := ubuntu2404Template
    stageLocation := chars "s3://k8s-release-dev"
    version := chars "v1.33.0-alpha.0.50+abc123"
    token := chars "abcdef.0123456789abcdef"
    certificateKey := chars "deadbeef00112233445566778899aabbccddeeff00112233445566778899aabb"
    clusterID := chars "cid-12345678"
    featureGates := chars "AllAlpha=false"
    externalCloudProvider := flags
    externalCloudProviderImage :=
      chars "registry.k8s.io/provider-aws/cloud-controller-manager:v1.31.0"
    externalLoadBalancer := flags
    devicePluginNvidia := flags
    configureScript := chars "H4sIAAAAconfigure=="
    kubeadmInitYaml := chars "H4sIAAAAinit=="
    kubeadmJoinYaml := chars "H4sIAAAAjoin=="
    runKubeadmSH := chars "H4sIAAAArunkubeadm=="
    runPostInstallSH := chars "H4sIAAAApostinstall=="
    containerdInstallService := chars "unit-a"
    containerdService := chars "unit-b"
    containerdTarget := chars "unit-c"
    kubeadmConf := chars "unit-d"
    kubeletService := chars "unit-e"
    credentialProviderYaml := chars "unit-f" }

/-- The same substitution inputs over the `al2023.sh` template (the
configuration `--image al2023` selects). -/
def al2023UserDataEnv : UserDataEnv :=
  { ubuntuUserDataEnv true with template := al2023Template }

/-- Line 63 of `al2023.sh`: the node-ip line with its boot-time token. -/
def al2023NodeIpLine : List Char := chars "    node-ip: \x7b\x7bNODE_IP\x7d\x7d"

/-- C5 is false on the code: for the supported `--image al2023`
configuration, the worker payload handed to `RunInstances` — after
`LaunchNewInstance` substitutes the control-plane-IP token — still contains
the `NODE_IP` placeholder (likewise `PROVIDER_ID` and `HOSTNAME_OVERRIDE`):
`al2023.sh` deliberately leaves these tokens to be rewritten by `sed` on the
instance at boot time, so the launched payload does contain placeholder
tokens. -/
theorem C5_counterexample :
    (launchSubstitute (getUserData al2023UserDataEnv false)
        (chars "10.0.0.101")).any
      (fun l => containsSub (tok "NODE_IP") l) = true := by
  unfold launchSubstitute replaceAllLines getUserData
  rw [List.map_map, List.any_eq_true]
  have hmem : al2023NodeIpLine ∈ al2023Template := by decide
  refine ⟨_, List.mem_map_of_mem
    ((fun l => replaceAll l tokControlPlaneIP (chars "10.0.0.101")) ∘
      userDataLine al2023UserDataEnv false) hmem, ?_⟩
  decide

/-- C5 (amended): for the embedded default `ubuntu2404.yaml` template — the
`--image ubuntu` / empty-image path — for every combination of the boolean
feature flags, both roles, arbitrary values of the plain substitution inputs
and brace-free values for the spliced sub-documents (gzip+base64 output is
always brace-free) and for the launch-time control-plane IP, the payload
passed to the instance-create call contains no brace at all, hence zero
placeholder tokens.  Templates of the al2023 family are excluded: they
intentionally retain boot-time tokens. -/
theorem C5_no_unresolved_tokens_ubuntu (env : UserDataEnv) (cp : Bool)
    (ip : List Char) (htpl : env.template = ubuntu2404Template)
    (hsub : spliceValuesBraceFree env = true) (hip : braceFree ip = true) :
    (launchSubstitute (getUserData env cp) ip).all braceFree = true := by
  have hsub2 := hsub
  simp only [spliceValuesBraceFree, Bool.and_eq_true] at hsub2
  obtain ⟨⟨⟨⟨⟨⟨⟨⟨⟨⟨hcs, hinit⟩, hjoin⟩, hrk⟩, hrpi⟩, hcis⟩, hcsvc⟩, hct⟩, hkc⟩, hks⟩, hcpv⟩ := hsub2
  have hsplit : ubuntu2404Template.all
      (fun l => braceFree l || decide (l ∈ ubuntuTokenLines)) = true := by decide
  unfold launchSubstitute replaceAllLines getUserData
  rw [htpl, List.map_map, List.all_map, List.all_eq_true]
  intro l hl
  have hca := List.all_eq_true.mp hsplit l hl
  by_cases hbf : braceFree l = true
  · simp only [Function.comp_apply]
    rw [userDataLine_id _ _ _ hbf, launchLine_id _ _ hbf]
    exact hbf
  · have hca2 : braceFree l = true ∨ l ∈ ubuntuTokenLines := by
      simpa [Bool.or_eq_true, decide_eq_true_eq] using hca
    have hmem : l ∈ ubuntuTokenLines := by
      rcases hca2 with h | h
      · exact absurd h hbf
      · exact h
    simp only [ubuntuTokenLines, List.mem_cons, List.not_mem_nil, or_false] at hmem
    rcases hmem with rfl | rfl | rfl | rfl | rfl | rfl | rfl | rfl | rfl | rfl | rfl | rfl | rfl
    · simp only [Function.comp_apply]
      rw [userDataLine_eq_applySubs]
      have hstep : applySubs (chars "    content: \x7b\x7bCONTAINERD_INSTALL_SERVICE\x7d\x7d")
          (userDataSubs env cp) =
          applySubs (chars "    content: " ++ env.containerdInstallService ++ [])
            ((userDataSubs env cp).drop 10) :=
        applySubs_splice (chars "    content: \x7b\x7bCONTAINERD_INSTALL_SERVICE\x7d\x7d")
          (chars "    content: ") [] env.containerdInstallService '\x7b'
          (chars "\x7bCONTAINERD_INSTALL_SERVICE\x7d\x7d")
          ((userDataSubs env cp).take 9) ((userDataSubs env cp).drop 10)
          (by decide)
          ((by decide : noOccPats (udPats.take 9)
              (chars "    content: \x7b\x7bCONTAINERD_INSTALL_SERVICE\x7d\x7d") = true))
          (by decide) (by decide)
      rw [hstep]
      have hbf2 : braceFree (chars "    content: " ++ env.containerdInstallService ++ []) = true := by
        simp only [braceFree_append, hcis, Bool.and_true]
        decide
      rw [applySubs_braceFree_id _ ((userDataSubs env cp).drop 10) hbf2
        ((by decide : (udPats.drop 10).all headIsBrace = true))]
      rw [launchLine_id _ ip hbf2]
      exact hbf2
    · simp only [Function.comp_apply]
      rw [userDataLine_eq_applySubs]
      have hstep : applySubs (chars "    content: \x7b\x7bCONTAINERD_SERVICE\x7d\x7d")
          (userDataSubs env cp) =
          applySubs (chars "    content: " ++ env.containerdService ++ [])
            ((userDataSubs env cp).drop 11) :=
        applySubs_splice (chars "    content: \x7b\x7bCONTAINERD_SERVICE\x7d\x7d")
          (chars "    content: ") [] env.containerdService '\x7b'
          (chars "\x7bCONTAINERD_SERVICE\x7d\x7d")
          ((userDataSubs env cp).take 10) ((userDataSubs env cp).drop 11)
          (by decide)
          ((by decide : noOccPats (udPats.take 10)
              (chars "    content: \x7b\x7bCONTAINERD_SERVICE\x7d\x7d") = true))
          (by decide) (by decide)
      rw [hstep]
      have hbf2 : braceFree (chars "    content: " ++ env.containerdService ++ []) = true := by
        simp only [braceFree_append, hcsvc, Bool.and_true]
        decide
      rw [applySubs_braceFree_id _ ((userDataSubs env cp).drop 11) hbf2
        ((by decide : (udPats.drop 11).all headIsBrace = true))]
      rw [launchLine_id _ ip hbf2]
      exact hbf2
    · simp only [Function.comp_apply]
      rw [userDataLine_eq_applySubs]
      have hstep : applySubs (chars "    content: \x7b\x7bCONTAINERD_TARGET\x7d\x7d")
          (userDataSubs env cp) =
          applySubs (chars "    content: " ++ env.containerdTarget ++ [])
            ((userDataSubs env cp).drop 12) :=
        applySubs_splice (chars "    content: \x7b\x7bCONTAINERD_TARGET\x7d\x7d")
          (chars "    content: ") [] env.containerdTarget '\x7b'
          (chars "\x7bCONTAINERD_TARGET\x7d\x7d")
          ((userDataSubs env cp).take 11) ((userDataSubs env cp).drop 12)
          (by decide)
          ((by decide : noOccPats (udPats.take 11)
              (chars "    content: \x7b\x7bCONTAINERD_TARGET\x7d\x7d") = true))
          (by decide) (by decide)
      rw [hstep]
      have hbf2 : braceFree (chars "    content: " ++ env.containerdTarget ++ []) = true := by
        simp only [braceFree_append, hct, Bool.and_true]
        decide
      rw [applySubs_braceFree_id _ ((userDataSubs env cp).drop 12) hbf2
        ((by decide : (udPats.drop 12).all headIsBrace = true))]
      rw [launchLine_id _ ip hbf2]
      exact hbf2
    · simp only [Function.comp_apply]
      rw [userDataLine_eq_applySubs]
      have hstep : applySubs (chars "    content: \x7b\x7bCREDENTIAL_PROVIDER_YAML\x7d\x7d")
          (userDataSubs env cp) =
          applySubs (chars "    content: " ++ env.credentialProviderYaml ++ [])
            ((userDataSubs env cp).drop 15) :=
        applySubs_splice (chars "    content: \x7b\x7bCREDENTIAL_PROVIDER_YAML\x7d\x7d")
          (chars "    content: ") [] env.credentialProviderYaml '\x7b'
          (chars "\x7bCREDENTIAL_PROVIDER_YAML\x7d\x7d")
          ((userDataSubs env cp).take 14) ((userDataSubs env cp).drop 15)
          (by decide)
          ((by decide : noOccPats (udPats.take 14)
              (chars "    content: \x7b\x7bCREDENTIAL_PROVIDER_YAML\x7d\x7d") = true))
          (by decide) (by decide)
      rw [hstep]
      have hbf2 : braceFree (chars "    content: " ++ env.credentialProviderYaml ++ []) = true := by
        simp only [braceFree_append, hcpv, Bool.and_true]
        decide
      rw [applySubs_braceFree_id _ ((userDataSubs env cp).drop 15) hbf2
        ((by decide : (udPats.drop 15).all headIsBrace = true))]
      rw [launchLine_id _ ip hbf2]
      exact hbf2
    · simp only [Function.comp_apply]
      rw [userDataLine_eq_applySubs]
      have hstep : applySubs (chars "    content: \x7b\x7bKUBEADM_CONF\x7d\x7d")
          (userDataSubs env cp) =
          applySubs (chars "    content: " ++ env.kubeadmConf ++ [])
            ((userDataSubs env cp).drop 13) :=
        applySubs_splice (chars "    content: \x7b\x7bKUBEADM_CONF\x7d\x7d")
          (chars "    content: ") [] env.kubeadmConf '\x7b'
          (chars "\x7bKUBEADM_CONF\x7d\x7d")
          ((userDataSubs env cp).take 12) ((userDataSubs env cp).drop 13)
          (by decide)
          ((by decide : noOccPats (udPats.take 12)
              (chars "    content: \x7b\x7bKUBEADM_CONF\x7d\x7d") = true))
          (by decide) (by decide)
      rw [hstep]
      have hbf2 : braceFree (chars "    content: " ++ env.kubeadmConf ++ []) = true := by
        simp only [braceFree_append, hkc, Bool.and_true]
        decide
      rw [applySubs_braceFree_id _ ((userDataSubs env cp).drop 13) hbf2
        ((by decide : (udPats.drop 13).all headIsBrace = true))]
      rw [launchLine_id _ ip hbf2]
      exact hbf2
    · simp only [Function.comp_apply]
      rw [userDataLine_eq_applySubs]
      have hstep : applySubs (chars "    content: \x7b\x7bKUBELET_SERVICE\x7d\x7d")
          (userDataSubs env cp) =
          applySubs (chars "    content: " ++ env.kubeletService ++ [])
            ((userDataSubs env cp).drop 14) :=
        applySubs_splice (chars "    content: \x7b\x7bKUBELET_SERVICE\x7d\x7d")
          (chars "    content: ") [] env.kubeletService '\x7b'
          (chars "\x7bKUBELET_SERVICE\x7d\x7d")
          ((userDataSubs env cp).take 13) ((userDataSubs env cp).drop 14)
          (by decide)
          ((by decide : noOccPats (udPats.take 13)
              (chars "    content: \x7b\x7bKUBELET_SERVICE\x7d\x7d") = true))
          (by decide) (by decide)
      rw [hstep]
      have hbf2 : braceFree (chars "    content: " ++ env.kubeletService ++ []) = true := by
        simp only [braceFree_append, hks, Bool.and_true]
        decide
      rw [applySubs_braceFree_id _ ((userDataSubs env cp).drop 14) hbf2
        ((by decide : (udPats.drop 14).all headIsBrace = true))]
      rw [launchLine_id _ ip hbf2]
      exact hbf2
    · simp only [Function.comp_apply]
      rw [userDataLine_eq_applySubs]
      have hstep : applySubs (chars "    content: \x7b\x7bRUN_KUBEADM_SH\x7d\x7d")
          (userDataSubs env cp) =
          applySubs (chars "    content: " ++ env.runKubeadmSH ++ [])
            ((userDataSubs env cp).drop 9) :=
        applySubs_splice (chars "    content: \x7b\x7bRUN_KUBEADM_SH\x7d\x7d")
          (chars "    content: ") [] env.runKubeadmSH '\x7b'
          (chars "\x7bRUN_KUBEADM_SH\x7d\x7d")
          ((userDataSubs env cp).take 8) ((userDataSubs env cp).drop 9)
          (by decide)
          ((by decide : noOccPats (udPats.take 8)
              (chars "    content: \x7b\x7bRUN_KUBEADM_SH\x7d\x7d") = true))
          (by decide) (by decide)
      rw [hstep]
      have hbf2 : braceFree (chars "    content: " ++ env.runKubeadmSH ++ []) = true := by
        simp only [braceFree_append, hrk, Bool.and_true]
        decide
      rw [applySubs_braceFree_id _ ((userDataSubs env cp).drop 9) hbf2
        ((by decide : (udPats.drop 9).all headIsBrace = true))]
      rw [launchLine_id _ ip hbf2]
      exact hbf2
    · simp only [Function.comp_apply]
      rw [userDataLine_eq_applySubs]
      have hstep : applySubs (chars "    content: \x7b\x7bRUN_POST_INSTALL_SH\x7d\x7d")
          (userDataSubs env cp) =
          applySubs (chars "    content: " ++ env.runPostInstallSH ++ [])
            ((userDataSubs env cp).drop 21) :=
        applySubs_splice (chars "    content: \x7b\x7bRUN_POST_INSTALL_SH\x7d\x7d")
          (chars "    content: ") [] env.runPostInstallSH '\x7b'
          (chars "\x7bRUN_POST_INSTALL_SH\x7d\x7d")
          ((userDataSubs env cp).take 20) ((userDataSubs env cp).drop 21)
          (by decide)
          ((by decide : noOccPats (udPats.take 20)
              (chars "    content: \x7b\x7bRUN_POST_INSTALL_SH\x7d\x7d") = true))
          (by decide) (by decide)
      rw [hstep]
      have hbf2 : braceFree (chars "    content: " ++ env.runPostInstallSH ++ []) = true := by
        simp only [braceFree_append, hrpi, Bool.and_true]
        decide
      rw [applySubs_braceFree_id _ ((userDataSubs env cp).drop 21) hbf2
        ((by decide : (udPats.drop 21).all headIsBrace = true))]
      rw [launchLine_id _ ip hbf2]
      exact hbf2
    · simp only [Function.comp_apply]
      rw [userDataLine_eq_applySubs]
      have hstep : applySubs (chars "    content: \x7b\x7bCONFIGURE_SH\x7d\x7d")
          (userDataSubs env cp) =
          applySubs (chars "    content: " ++ env.configureScript ++ [])
            ((userDataSubs env cp).drop 6) :=
        applySubs_splice (chars "    content: \x7b\x7bCONFIGURE_SH\x7d\x7d")
          (chars "    content: ") [] env.configureScript '\x7b'
          (chars "\x7bCONFIGURE_SH\x7d\x7d")
          ((userDataSubs env cp).take 5) ((userDataSubs env cp).drop 6)
          (by decide)
          ((by decide : noOccPats (udPats.take 5)
              (chars "    content: \x7b\x7bCONFIGURE_SH\x7d\x7d") = true))
          (by decide) (by decide)
      rw [hstep]
      have hbf2 : braceFree (chars "    content: " ++ env.configureScript ++ []) = true := by
        simp only [braceFree_append, hcs, Bool.and_true]
        decide
      rw [applySubs_braceFree_id _ ((userDataSubs env cp).drop 6) hbf2
        ((by decide : (udPats.drop 6).all headIsBrace = true))]
      rw [launchLine_id _ ip hbf2]
      exact hbf2
    · simp only [Function.comp_apply]
      rw [userDataLine_eq_applySubs]
      have hstep : applySubs (chars "    content: \x7b\x7bKUBEADM_INIT_YAML\x7d\x7d")
          (userDataSubs env cp) =
          applySubs (chars "    content: " ++ env.kubeadmInitYaml ++ [])
            ((userDataSubs env cp).drop 7) :=
        applySubs_splice (chars "    content: \x7b\x7bKUBEADM_INIT_YAML\x7d\x7d")
          (chars "    content: ") [] env.kubeadmInitYaml '\x7b'
          (chars "\x7bKUBEADM_INIT_YAML\x7d\x7d")
          ((userDataSubs env cp).take 6) ((userDataSubs env cp).drop 7)
          (by decide)
          ((by decide : noOccPats (udPats.take 6)
              (chars "    content: \x7b\x7bKUBEADM_INIT_YAML\x7d\x7d") = true))
          (by decide) (by decide)
      rw [hstep]
      have hbf2 : braceFree (chars "    content: " ++ env.kubeadmInitYaml ++ []) = true := by
        simp only [braceFree_append, hinit, Bool.and_true]
        decide
      rw [applySubs_braceFree_id _ ((userDataSubs env cp).drop 7) hbf2
        ((by decide : (udPats.drop 7).all headIsBrace = true))]
      rw [launchLine_id _ ip hbf2]
      exact hbf2
    · simp only [Function.comp_apply]
      rw [userDataLine_eq_applySubs]
      have hstep : applySubs (chars "    content: \x7b\x7bKUBEADM_JOIN_YAML\x7d\x7d")
          (userDataSubs env cp) =
          applySubs (chars "    content: " ++ env.kubeadmJoinYaml ++ [])
            ((userDataSubs env cp).drop 8) :=
        applySubs_splice (chars "    content: \x7b\x7bKUBEADM_JOIN_YAML\x7d\x7d")
          (chars "    content: ") [] env.kubeadmJoinYaml '\x7b'
          (chars "\x7bKUBEADM_JOIN_YAML\x7d\x7d")
          ((userDataSubs env cp).take 7) ((userDataSubs env cp).drop 8)
          (by decide)
          ((by decide : noOccPats (udPats.take 7)
              (chars "    content: \x7b\x7bKUBEADM_JOIN_YAML\x7d\x7d") = true))
          (by decide) (by decide)
      rw [hstep]
      have hbf2 : braceFree (chars "    content: " ++ env.kubeadmJoinYaml ++ []) = true := by
        simp only [braceFree_append, hjoin, Bool.and_true]
        decide
      rw [applySubs_braceFree_id _ ((userDataSubs env cp).drop 8) hbf2
        ((by decide : (udPats.drop 8).all headIsBrace = true))]
      rw [launchLine_id _ ip hbf2]
      exact hbf2
    · simp only [Function.comp_apply]
      rw [userDataLine_eq_applySubs]
      have hno : noOccPats (udPats.take 21)
          (chars "  - KUBEADM_CONTROL_PLANE=\"\x7b\x7bKUBEADM_CONTROL_PLANE\x7d\x7d\" KUBEADM_CONTROL_PLANE_IP=\"\x7b\x7bKUBEADM_CONTROL_PLANE_IP\x7d\x7d\" /usr/local/bin/run-kubeadm.sh") = true := by decide
      cases cp with
      | true =>
        have hstep : applySubs (chars "  - KUBEADM_CONTROL_PLANE=\"\x7b\x7bKUBEADM_CONTROL_PLANE\x7d\x7d\" KUBEADM_CONTROL_PLANE_IP=\"\x7b\x7bKUBEADM_CONTROL_PLANE_IP\x7d\x7d\" /usr/local/bin/run-kubeadm.sh")
            (userDataSubs env true) =
            chars "  - KUBEADM_CONTROL_PLANE=\"" ++ chars "true" ++ chars "\" KUBEADM_CONTROL_PLANE_IP=\"\x7b\x7bKUBEADM_CONTROL_PLANE_IP\x7d\x7d\" /usr/local/bin/run-kubeadm.sh" :=
          applySubs_splice (chars "  - KUBEADM_CONTROL_PLANE=\"\x7b\x7bKUBEADM_CONTROL_PLANE\x7d\x7d\" KUBEADM_CONTROL_PLANE_IP=\"\x7b\x7bKUBEADM_CONTROL_PLANE_IP\x7d\x7d\" /usr/local/bin/run-kubeadm.sh")
            (chars "  - KUBEADM_CONTROL_PLANE=\"")
            (chars "\" KUBEADM_CONTROL_PLANE_IP=\"\x7b\x7bKUBEADM_CONTROL_PLANE_IP\x7d\x7d\" /usr/local/bin/run-kubeadm.sh")
            (chars "true") '\x7b' (chars "\x7bKUBEADM_CONTROL_PLANE\x7d\x7d")
            ((userDataSubs env true).take 21) []
            (by decide) hno (by decide) (by decide)
        rw [hstep]
        have hstep2 : replaceAll (chars "  - KUBEADM_CONTROL_PLANE=\"" ++ chars "true" ++ chars "\" KUBEADM_CONTROL_PLANE_IP=\"\x7b\x7bKUBEADM_CONTROL_PLANE_IP\x7d\x7d\" /usr/local/bin/run-kubeadm.sh")
            tokControlPlaneIP ip =
            chars "  - KUBEADM_CONTROL_PLANE=\"true\" KUBEADM_CONTROL_PLANE_IP=\"" ++ ip ++ chars "\" /usr/local/bin/run-kubeadm.sh" :=
          replaceAll_splice
            (chars "  - KUBEADM_CONTROL_PLANE=\"true\" KUBEADM_CONTROL_PLANE_IP=\"")
            '\x7b' (chars "\x7bKUBEADM_CONTROL_PLANE_IP\x7d\x7d") ip
            (chars "\" /usr/local/bin/run-kubeadm.sh")
            (by decide) (by decide)
        rw [hstep2]
        simp only [braceFree_append, hip, Bool.and_true]
        decide
      | false =>
        have hstep : applySubs (chars "  - KUBEADM_CONTROL_PLANE=\"\x7b\x7bKUBEADM_CONTROL_PLANE\x7d\x7d\" KUBEADM_CONTROL_PLANE_IP=\"\x7b\x7bKUBEADM_CONTROL_PLANE_IP\x7d\x7d\" /usr/local/bin/run-kubeadm.sh")
            (userDataSubs env false) =
            chars "  - KUBEADM_CONTROL_PLANE=\"" ++ chars "false" ++ chars "\" KUBEADM_CONTROL_PLANE_IP=\"\x7b\x7bKUBEADM_CONTROL_PLANE_IP\x7d\x7d\" /usr/local/bin/run-kubeadm.sh" :=
          applySubs_splice (chars "  - KUBEADM_CONTROL_PLANE=\"\x7b\x7bKUBEADM_CONTROL_PLANE\x7d\x7d\" KUBEADM_CONTROL_PLANE_IP=\"\x7b\x7bKUBEADM_CONTROL_PLANE_IP\x7d\x7d\" /usr/local/bin/run-kubeadm.sh")
            (chars "  - KUBEADM_CONTROL_PLANE=\"")
            (chars "\" KUBEADM_CONTROL_PLANE_IP=\"\x7b\x7bKUBEADM_CONTROL_PLANE_IP\x7d\x7d\" /usr/local/bin/run-kubeadm.sh")
            (chars "false") '\x7b' (chars "\x7bKUBEADM_CONTROL_PLANE\x7d\x7d")
            ((userDataSubs env false).take 21) []
            (by decide) hno (by decide) (by decide)
        rw [hstep]
        have hstep2 : replaceAll (chars "  - KUBEADM_CONTROL_PLANE=\"" ++ chars "false" ++ chars "\" KUBEADM_CONTROL_PLANE_IP=\"\x7b\x7bKUBEADM_CONTROL_PLANE_IP\x7d\x7d\" /usr/local/bin/run-kubeadm.sh")
            tokControlPlaneIP ip =
            chars "  - KUBEADM_CONTROL_PLANE=\"false\" KUBEADM_CONTROL_PLANE_IP=\"" ++ ip ++ chars "\" /usr/local/bin/run-kubeadm.sh" :=
          replaceAll_splice
            (chars "  - KUBEADM_CONTROL_PLANE=\"false\" KUBEADM_CONTROL_PLANE_IP=\"")
            '\x7b' (chars "\x7bKUBEADM_CONTROL_PLANE_IP\x7d\x7d") ip
            (chars "\" /usr/local/bin/run-kubeadm.sh")
            (by decide) (by decide)
        rw [hstep2]
        simp only [braceFree_append, hip, Bool.and_true]
        decide
    · simp only [Function.comp_apply]
      rw [userDataLine_eq_applySubs]
      have hno : noOccPats (udPats.take 21)
          (chars "  - KUBEADM_CONTROL_PLANE=\"\x7b\x7bKUBEADM_CONTROL_PLANE\x7d\x7d\" /usr/local/bin/run-post-install.sh") = true := by decide
      cases cp with
      | true =>
        have hstep : applySubs (chars "  - KUBEADM_CONTROL_PLANE=\"\x7b\x7bKUBEADM_CONTROL_PLANE\x7d\x7d\" /usr/local/bin/run-post-install.sh")
            (userDataSubs env true) =
            chars "  - KUBEADM_CONTROL_PLANE=\"" ++ chars "true" ++ chars "\" /usr/local/bin/run-post-install.sh" :=
          applySubs_splice (chars "  - KUBEADM_CONTROL_PLANE=\"\x7b\x7bKUBEADM_CONTROL_PLANE\x7d\x7d\" /usr/local/bin/run-post-install.sh")
            (chars "  - KUBEADM_CONTROL_PLANE=\"")
            (chars "\" /usr/local/bin/run-post-install.sh")
            (chars "true") '\x7b' (chars "\x7bKUBEADM_CONTROL_PLANE\x7d\x7d")
            ((userDataSubs env true).take 21) []
            (by decide) hno (by decide) (by decide)
        rw [hstep]
        have hbf2 : braceFree (chars "  - KUBEADM_CONTROL_PLANE=\"" ++ chars "true" ++
            chars "\" /usr/local/bin/run-post-install.sh") = true := by decide
        rw [launchLine_id _ ip hbf2]
        exact hbf2
      | false =>
        have hstep : applySubs (chars "  - KUBEADM_CONTROL_PLANE=\"\x7b\x7bKUBEADM_CONTROL_PLANE\x7d\x7d\" /usr/local/bin/run-post-install.sh")
            (userDataSubs env false) =
            chars "  - KUBEADM_CONTROL_PLANE=\"" ++ chars "false" ++ chars "\" /usr/local/bin/run-post-install.sh" :=
          applySubs_splice (chars "  - KUBEADM_CONTROL_PLANE=\"\x7b\x7bKUBEADM_CONTROL_PLANE\x7d\x7d\" /usr/local/bin/run-post-install.sh")
            (chars "  - KUBEADM_CONTROL_PLANE=\"")
            (chars "\" /usr/local/bin/run-post-install.sh")
            (chars "false") '\x7b' (chars "\x7bKUBEADM_CONTROL_PLANE\x7d\x7d")
            ((userDataSubs env false).take 21) []
            (by decide) hno (by decide) (by decide)
        rw [hstep]
        have hbf2 : braceFree (chars "  - KUBEADM_CONTROL_PLANE=\"" ++ chars "false" ++
            chars "\" /usr/local/bin/run-post-install.sh") = true := by decide
        rw [launchLine_id _ ip hbf2]
        exact hbf2

/-- Witness: the amended C5 theorem applied at concrete brace-free
substitution inputs, for both roles. -/
theorem C5_no_unresolved_tokens_ubuntu_witness :
    spliceValuesBraceFree (ubuntuUserDataEnv true) = true ∧
    (launchSubstitute (getUserData (ubuntuUserDataEnv true) true)
        (chars "")).all braceFree = true ∧
    (launchSubstitute (getUserData (ubuntuUserDataEnv false) false)
        (chars "10.0.0.101")).all braceFree = true :=
  ⟨by decide,
   C5_no_unresolved_tokens_ubuntu (ubuntuUserDataEnv true) true (chars "")
     rfl (by decide) (by decide),
   C5_no_unresolved_tokens_ubuntu (ubuntuUserDataEnv false) false
     (chars "10.0.0.101") rfl (by decide) (by decide)⟩

end EC2
